import Mathlib

/-!
# The ECS usage example (`example.c`)

A shallow embedding of the three systems of `example.c` (`movement_system`,
`sprite_render_system`, `missile_system`), of `countEnts` and of the main loop.

The ECS runtime the example includes (`ecs.h`) is not part of the sources; the
runtime calls the systems make are modelled from the written design of the
runtime (entity slots with generation counters, fixed-capacity pools with
free lists, stable slot indices).

Scalars: the example computes in `float`.  Every definition is generic in the
scalar type `F` and takes its arithmetic from the usual operator classes and an
explicit square-root function, so the same definitions run on machine floats and
are reasoned about over the real numbers.
-/

namespace EcsExample

/-! ## Data model -/

/-- The component type ids of `example.c` (`enum ComponentType`, without the
`COMPONENT_COUNT` sentinel). -/
inductive ComponentType
  | COMPONENT_TRANSFORM
  | COMPONENT_VELOCITY
  | COMPONENT_SPRITE
  | COMPONENT_TARGET
deriving DecidableEq, Repr

open ComponentType

/-- Modelled from the spec: the type `EcsEnt` of `ecs.h`, an entity handle: a slot
index together with the generation the slot had when the handle was issued. -/
structure EcsEnt where
  index : Nat
  generation : Nat
deriving DecidableEq, Repr

/-- A position component (`CTransform`). -/
structure CTransform (F : Type) where
  x : F
  y : F

/-- A velocity component (`CVelocity`). -/
structure CVelocity (F : Type) where
  dx : F
  dy : F

/-- A sprite component (`CSprite`). -/
structure CSprite (F : Type) where
  gl_id : Nat
  rotation : F
  name : String

/-- The target component (`Ctarget`): a stored entity handle. -/
structure Ctarget where
  target : EcsEnt

/-- Modelled from the spec: an entity slot of `ecs.h`: generation counter,
live flag, one membership bit per component type and, per component type, the
index of the pool cell that holds the entity's instance. -/
structure EntitySlot where
  generation : Nat
  live : Bool
  mask : ComponentType → Bool
  component_slots : ComponentType → Nat

/-- Modelled from the spec: the bookkeeping of one component pool of `ecs.h`:
fixed capacity, the number of cells handed out from the pool end so far, and the
stack of recycled cell indices.  (The example registers every pool with a null
free function, so no destructor is recorded.) -/
structure ComponentPool where
  registered : Bool
  capacity : Nat
  used : Nat
  free_list : List Nat

/-- The two phases systems are registered under (`ECS_SYSTEM_UPDATE`,
`ECS_SYSTEM_RENDER`). -/
inductive EcsSystemType
  | ECS_SYSTEM_UPDATE
  | ECS_SYSTEM_RENDER
deriving DecidableEq, Repr

open EcsSystemType

/-- The system callbacks of `example.c`, by name (the registry stores these in
place of function pointers). -/
inductive SystemId
  | movement_system
  | missile_system
  | sprite_render_system
deriving DecidableEq, Repr

/-- Modelled from the spec: the world `Ecs` of `ecs.h`: entity slots, the
high-water mark of reserved slots, the stack of reusable slot indices, the pools
(bookkeeping and typed cells) and the registered systems in registration order. -/
structure Ecs (F : Type) where
  max_entities : Nat
  count : Nat
  slots : Nat → EntitySlot
  free_list : List Nat
  pools : ComponentType → ComponentPool
  transforms : Nat → CTransform F
  velocities : Nat → CVelocity F
  sprites : Nat → CSprite F
  targets : Nat → Ctarget
  component_count : Nat
  max_systems : Nat
  systems : List (SystemId × EcsSystemType)

/-! ## The runtime calls used by the example -/

section Runtime

variable {F : Type}

/-- Modelled from the spec: `ecs_ent_is_valid` of `ecs.h`: the index is in range,
the slot's generation equals the handle's, and the slot is live. -/
def ecs_ent_is_valid (w : Ecs F) (e : EcsEnt) : Bool :=
  decide (e.index < w.max_entities)
    && (w.slots e.index).generation == e.generation
    && (w.slots e.index).live

/-- Modelled from the spec: `ecs_ent_has_component` of `ecs.h`: the membership bit
of a valid handle; an invalid handle has no component. -/
def ecs_ent_has_component (w : Ecs F) (e : EcsEnt) (t : ComponentType) : Bool :=
  ecs_ent_is_valid w e && (w.slots e.index).mask t

/-- Modelled from the spec: `ecs_ent_has_mask` of `ecs.h` (the `ECS_MASK(n, ...)`
argument is the list of the `n` component types): every listed bit is set. -/
def ecs_ent_has_mask (w : Ecs F) (e : EcsEnt) (m : List ComponentType) : Bool :=
  ecs_ent_is_valid w e && m.all (fun t => (w.slots e.index).mask t)

/-- Modelled from the spec: `ecs_ent_get_component` of `ecs.h`: the pool cell of
the entity's instance (the returned pointer), or nothing (a null pointer) when the
bit is unset or the handle is invalid. -/
def ecs_ent_get_component (w : Ecs F) (e : EcsEnt) (t : ComponentType) : Option Nat :=
  if ecs_ent_has_component w e t then some ((w.slots e.index).component_slots t) else none

/-- Modelled from the spec: `ecs_for_count` of `ecs.h`, the number of reserved
slots, dead ones included. -/
def ecs_for_count (w : Ecs F) : Nat := w.count

/-- Modelled from the spec: `ecs_get_ent` of `ecs.h`: the handle of slot `i` at
the slot's current generation. -/
def ecs_get_ent (w : Ecs F) (i : Nat) : EcsEnt :=
  { index := i, generation := (w.slots i).generation }

/-- Modelled from the spec: `ecs_ent_remove_component` of `ecs.h`: the cell goes
back to the pool's free list (its bytes are left as they are), the membership bit
and the recorded cell index are cleared; nothing happens when the entity lacks
the component. -/
def ecs_ent_remove_component (w : Ecs F) (e : EcsEnt) (t : ComponentType) : Ecs F :=
  if ecs_ent_has_component w e t then
    { w with
      pools := Function.update w.pools t
        { w.pools t with
          free_list := (w.slots e.index).component_slots t :: (w.pools t).free_list }
      slots := Function.update w.slots e.index
        { w.slots e.index with
          mask := Function.update (w.slots e.index).mask t false
          component_slots := Function.update (w.slots e.index).component_slots t 0 } }
  else w

/-- Modelled from the spec: `ecs_ent_destroy` of `ecs.h`: nothing happens for a
stale handle; else every present component is removed, the mask is cleared, the
generation is incremented (a 32-bit counter), the slot is marked dead and its
index is pushed on the free list.  No other slot moves and the number of
reserved slots stays. -/
def ecs_ent_destroy (w : Ecs F) (e : EcsEnt) : Ecs F :=
  if ecs_ent_is_valid w e then
    let w1 := [COMPONENT_TRANSFORM, COMPONENT_VELOCITY, COMPONENT_SPRITE, COMPONENT_TARGET].foldl
      (fun acc t => ecs_ent_remove_component acc e t) w
    { w1 with
      slots := Function.update w1.slots e.index
        { w1.slots e.index with
          generation := ((w1.slots e.index).generation + 1) % 2 ^ 32
          live := false
          mask := fun _ => false }
      free_list := e.index :: w1.free_list }
  else w

/-- Modelled from the spec: `ecs_make` of `ecs.h`: an empty world with the given
limits; no slot is reserved, no pool is registered, the cells hold default
bytes that nothing reads before a component is added. -/
def ecs_make [Inhabited F] (max_entities component_count system_count : Nat) : Ecs F :=
  { max_entities := max_entities
    component_count := component_count
    count := 0
    slots := fun _ =>
      { generation := 0, live := false, mask := fun _ => false, component_slots := fun _ => 0 }
    free_list := []
    pools := fun _ => { registered := false, capacity := 0, used := 0, free_list := [] }
    transforms := fun _ => { x := default, y := default }
    velocities := fun _ => { dx := default, dy := default }
    sprites := fun _ => { gl_id := 0, rotation := default, name := "" }
    targets := fun _ => { target := { index := 0, generation := 0 } }
    max_systems := system_count
    systems := [] }

/-- Modelled from the spec: `ecs_register_component` of `ecs.h` (the element size
and the null free function of the example are not recorded): the pool gets its
fixed capacity; registering a type twice changes nothing. -/
def ecs_register_component (w : Ecs F) (t : ComponentType) (capacity : Nat) : Ecs F :=
  if (w.pools t).registered then w
  else { w with
         pools := Function.update w.pools t
           { registered := true, capacity := capacity, used := 0, free_list := [] } }

/-- Modelled from the spec: `ecs_register_system` of `ecs.h`: the callback is
appended to the registry, which keeps registration order. -/
def ecs_register_system (w : Ecs F) (f : SystemId) (ty : EcsSystemType) : Ecs F :=
  if w.systems.length < w.max_systems then { w with systems := w.systems ++ [(f, ty)] } else w

/-- Modelled from the spec: `ecs_ent_make` of `ecs.h`: a recycled slot index when
the free list has one, else the next unreserved slot; nothing when the world is
full.  The handle carries the slot's current generation. -/
def ecs_ent_make (w : Ecs F) : Option (EcsEnt × Ecs F) :=
  match w.free_list with
  | i :: rest =>
    some ({ index := i, generation := (w.slots i).generation },
      { w with
        free_list := rest
        slots := Function.update w.slots i { w.slots i with live := true } })
  | [] =>
    if w.count < w.max_entities then
      some ({ index := w.count, generation := (w.slots w.count).generation },
        { w with
          count := w.count + 1
          slots := Function.update w.slots w.count { w.slots w.count with live := true } })
    else none

/-- The data handed to `ecs_ent_add_component`, by component type. -/
inductive ComponentData (F : Type)
  | transform (c : CTransform F)
  | velocity (c : CVelocity F)
  | sprite (c : CSprite F)
  | target (c : Ctarget)

/-- The component type a piece of component data belongs to. -/
def ComponentData.type : ComponentData F → ComponentType
  | .transform _ => COMPONENT_TRANSFORM
  | .velocity _ => COMPONENT_VELOCITY
  | .sprite _ => COMPONENT_SPRITE
  | .target _ => COMPONENT_TARGET

/-- Copy component data into cell `c` of its pool. -/
def Ecs.write_cell (w : Ecs F) (c : Nat) : ComponentData F → Ecs F
  | .transform v => { w with transforms := Function.update w.transforms c v }
  | .velocity v => { w with velocities := Function.update w.velocities c v }
  | .sprite v => { w with sprites := Function.update w.sprites c v }
  | .target v => { w with targets := Function.update w.targets c v }

/-- Modelled from the spec: the cell `ecs_ent_add_component` of `ecs.h` takes
next: the top of the pool's free list, else the pool end while the capacity
lasts. -/
def ComponentPool.next_cell (p : ComponentPool) : Option (Nat × ComponentPool) :=
  match p.free_list with
  | c :: rest => some (c, { p with free_list := rest })
  | [] => if p.used < p.capacity then some (p.used, { p with used := p.used + 1 }) else none

/-- Modelled from the spec: `ecs_ent_add_component` of `ecs.h`: the data is copied
into a free cell of the pool, the cell index is recorded in the entity's slot and
the membership bit is set.  On an invalid handle, an unregistered or exhausted
pool, or a component already present, the world stays as it is. -/
def ecs_ent_add_component (w : Ecs F) (e : EcsEnt) (t : ComponentType)
    (data : ComponentData F) : Ecs F :=
  if ecs_ent_is_valid w e && !(w.slots e.index).mask t && (w.pools t).registered
      && decide (data.type = t) then
    match (w.pools t).next_cell with
    | some (c, p) =>
      { w.write_cell c data with
        pools := Function.update w.pools t p
        slots := Function.update w.slots e.index
          { w.slots e.index with
            mask := Function.update (w.slots e.index).mask t true
            component_slots := Function.update (w.slots e.index).component_slots t c } }
    | none => w
  else w

end Runtime

/-! ## Execution state of a system -/

/-- An argument of a `printf` call. -/
inductive PrintArg (F : Type)
  | int (n : Nat)
  | str (s : String)
  | float (x : F)

/-- What a system does that is visible from outside its own locals, in program
order: runtime calls (with their handle arguments), accesses through component
pointers (pool and cell), float divisions (numerator and divisor) and output. -/
inductive Event (F : Type)
  | get_ent (i : Nat)
  | has_mask (e : EcsEnt) (m : List ComponentType)
  | get_component (e : EcsEnt) (t : ComponentType)
  | is_valid (e : EcsEnt)
  | has_component (e : EcsEnt) (t : ComponentType)
  | destroy (e : EcsEnt)
  | render_sprite (e : EcsEnt)
  | ent_print (e : EcsEnt)
  | load (t : ComponentType) (cell : Nat)
  | store (t : ComponentType) (cell : Nat)
  | divide (num den : F)
  | printf (fmt : String) (args : List (PrintArg F))

/-- A running program: the world, the events so far (oldest first), and whether
execution has stopped at the dereference of a null component pointer. -/
structure Exec (F : Type) where
  ecs : Ecs F
  trace : List (Event F)
  fault : Bool

section Systems

variable {F : Type}

/-- A fresh execution on world `w`. -/
def Exec.start (w : Ecs F) : Exec F := { ecs := w, trace := [], fault := false }

/-- Append events to the trace. -/
def Exec.emit (s : Exec F) (evs : List (Event F)) : Exec F :=
  { s with trace := s.trace ++ evs }

/-- Replace the world. -/
def Exec.put (s : Exec F) (w : Ecs F) : Exec F := { s with ecs := w }

/-- Dereference of a null component pointer: execution stops. -/
def Exec.null_deref (s : Exec F) : Exec F := { s with fault := true }

/-- The loop `for (unsigned int i = 0; i < ecs_for_count(ecs); i++) body` of every
system, started at index `i`.  The bound is re-read before each iteration; `fuel`
bounds the number of iterations; a stopped execution does nothing more. -/
def for_each_slot (body : Exec F → Nat → Exec F) : Nat → Nat → Exec F → Exec F
  | 0, _, s => s
  | fuel + 1, i, s =>
    if !s.fault && decide (i < ecs_for_count s.ecs) then
      for_each_slot body fuel (i + 1) (body s i)
    else s

/-- The mask `MOVEMENT_SYSTEM_MASK`. -/
def MOVEMENT_SYSTEM_MASK : List ComponentType := [COMPONENT_TRANSFORM, COMPONENT_VELOCITY]

/-- The mask `SPRITE_RENDER_SYSTEM_MASK`. -/
def SPRITE_RENDER_SYSTEM_MASK : List ComponentType := [COMPONENT_TRANSFORM, COMPONENT_SPRITE]

/-- The mask `MISSILE_SYSTEM_MASK`. -/
def MISSILE_SYSTEM_MASK : List ComponentType := [COMPONENT_TRANSFORM, COMPONENT_TARGET]

/-- The loop body of `movement_system` for slot `i`. -/
def movement_system_body [Add F] (s : Exec F) (i : Nat) : Exec F :=
  let e := ecs_get_ent s.ecs i
  let s := s.emit [.get_ent i, .has_mask e MOVEMENT_SYSTEM_MASK]
  if ecs_ent_has_mask s.ecs e MOVEMENT_SYSTEM_MASK then
    let xform := ecs_ent_get_component s.ecs e COMPONENT_TRANSFORM
    let velocity := ecs_ent_get_component s.ecs e COMPONENT_VELOCITY
    let s := s.emit [.get_component e COMPONENT_TRANSFORM, .get_component e COMPONENT_VELOCITY]
    match xform, velocity with
    | some xform, some velocity =>
      -- xform->x += velocity->dx;
      let s := (s.emit [.load COMPONENT_TRANSFORM xform, .load COMPONENT_VELOCITY velocity,
          .store COMPONENT_TRANSFORM xform]).put
        { s.ecs with
          transforms := Function.update s.ecs.transforms xform
            { s.ecs.transforms xform with
              x := (s.ecs.transforms xform).x + (s.ecs.velocities velocity).dx } }
      -- xform->y += velocity->dy;
      (s.emit [.load COMPONENT_TRANSFORM xform, .load COMPONENT_VELOCITY velocity,
          .store COMPONENT_TRANSFORM xform]).put
        { s.ecs with
          transforms := Function.update s.ecs.transforms xform
            { s.ecs.transforms xform with
              y := (s.ecs.transforms xform).y + (s.ecs.velocities velocity).dy } }
    | _, _ => s.null_deref
  else s

/-- The system `movement_system`. -/
def movement_system [Add F] (s : Exec F) : Exec F :=
  for_each_slot movement_system_body (ecs_for_count s.ecs) 0 s

/-- The loop body of `sprite_render_system` for slot `i`. -/
def sprite_render_system_body (s : Exec F) (i : Nat) : Exec F :=
  let e := ecs_get_ent s.ecs i
  let s := s.emit [.get_ent i, .has_mask e SPRITE_RENDER_SYSTEM_MASK]
  if ecs_ent_has_mask s.ecs e SPRITE_RENDER_SYSTEM_MASK then
    let xform := ecs_ent_get_component s.ecs e COMPONENT_TRANSFORM
    let sprite := ecs_ent_get_component s.ecs e COMPONENT_SPRITE
    let s := s.emit [.get_component e COMPONENT_TRANSFORM, .get_component e COMPONENT_SPRITE]
    match xform, sprite with
    | some xform, some sprite =>
      s.emit [.load COMPONENT_SPRITE sprite, .load COMPONENT_SPRITE sprite,
        .load COMPONENT_SPRITE sprite, .load COMPONENT_TRANSFORM xform,
        .load COMPONENT_TRANSFORM xform,
        .printf "id %i (%s), rot %f, x %f, y %f\n"
          [.int (s.ecs.sprites sprite).gl_id, .str (s.ecs.sprites sprite).name,
           .float (s.ecs.sprites sprite).rotation, .float (s.ecs.transforms xform).x,
           .float (s.ecs.transforms xform).y]]
    | _, _ => s.null_deref
  else s

/-- The system `sprite_render_system`. -/
def sprite_render_system (s : Exec F) : Exec F :=
  for_each_slot sprite_render_system_body (ecs_for_count s.ecs) 0 s

section Missile

variable [Add F] [Sub F] [Mul F] [Div F] [OfScientific F] [LT F]
  [DecidableRel (fun a b : F => a < b)]

/-- Lines 123 to 127 of `missile_system`: the missile is close enough; both the
missile and its target are destroyed.  `missile` is the pointer to the missile's
target component obtained at line 102; `render_sprite` is not defined in the
example and is taken to print only. -/
def missile_system_boom (s : Exec F) (e : EcsEnt) (missile : Nat) : Exec F :=
  let s := s.emit [.printf "BOOM!\n" [], .render_sprite e]
  -- render_sprite(ecs, missile->target);
  let s := s.emit [.load COMPONENT_TARGET missile, .render_sprite (s.ecs.targets missile).target]
  -- ecs_ent_destroy(ecs, e);
  let s := (s.emit [.destroy e]).put (ecs_ent_destroy s.ecs e)
  -- ecs_ent_destroy(ecs, missile->target);
  let s := s.emit [.load COMPONENT_TARGET missile, .destroy (s.ecs.targets missile).target]
  s.put (ecs_ent_destroy s.ecs (s.ecs.targets missile).target)

/-- Lines 109 to 128 of `missile_system`: the target is valid and has a transform;
the missile's velocity is pointed at it. -/
def missile_system_home (sqrtf : F → F) (s : Exec F) (e : EcsEnt) (missile : Nat) : Exec F :=
  let xform := ecs_ent_get_component s.ecs e COMPONENT_TRANSFORM
  let vel := ecs_ent_get_component s.ecs e COMPONENT_VELOCITY
  let TargXform := ecs_ent_get_component s.ecs (s.ecs.targets missile).target COMPONENT_TRANSFORM
  let s := s.emit [.get_component e COMPONENT_TRANSFORM, .get_component e COMPONENT_VELOCITY,
    .load COMPONENT_TARGET missile,
    .get_component (s.ecs.targets missile).target COMPONENT_TRANSFORM]
  match xform, TargXform with
  | some xform, some TargXform =>
    let tx := (s.ecs.transforms TargXform).x - (s.ecs.transforms xform).x
    let ty := (s.ecs.transforms TargXform).y - (s.ecs.transforms xform).y
    let d := sqrtf (tx * tx + ty * ty)
    let s := s.emit [.load COMPONENT_TRANSFORM TargXform, .load COMPONENT_TRANSFORM xform,
      .load COMPONENT_TRANSFORM TargXform, .load COMPONENT_TRANSFORM xform, .divide tx d]
    match vel with
    | some vel =>
      -- vel->dx = (tx / d) / 4.0;
      let s := (s.emit [.store COMPONENT_VELOCITY vel]).put
        { s.ecs with
          velocities := Function.update s.ecs.velocities vel
            { s.ecs.velocities vel with dx := (tx / d) / 4.0 } }
      -- vel->dy = (ty / d) / 4.0;
      let s := (s.emit [.divide ty d, .store COMPONENT_VELOCITY vel]).put
        { s.ecs with
          velocities := Function.update s.ecs.velocities vel
            { s.ecs.velocities vel with dy := (ty / d) / 4.0 } }
      let s := s.emit [.printf "target distance %f\n" [.float d]]
      if d < 0.2 then missile_system_boom s e missile else s
    | none => s.null_deref
  | _, _ => s.null_deref

/-- The loop body of `missile_system` for slot `i`. -/
def missile_system_body (sqrtf : F → F) (s : Exec F) (i : Nat) : Exec F :=
  let e := ecs_get_ent s.ecs i
  let s := s.emit [.get_ent i, .has_mask e MISSILE_SYSTEM_MASK]
  if ecs_ent_has_mask s.ecs e MISSILE_SYSTEM_MASK then
    let s := s.emit [.get_component e COMPONENT_TARGET]
    match ecs_ent_get_component s.ecs e COMPONENT_TARGET with
    | some missile =>
      let s := s.emit [.load COMPONENT_TARGET missile, .is_valid (s.ecs.targets missile).target]
      if ecs_ent_is_valid s.ecs (s.ecs.targets missile).target then
        let s := s.emit [.load COMPONENT_TARGET missile,
          .has_component (s.ecs.targets missile).target COMPONENT_TRANSFORM]
        if ecs_ent_has_component s.ecs (s.ecs.targets missile).target COMPONENT_TRANSFORM then
          missile_system_home sqrtf s e missile
        else
          s.emit [.printf "missile target has no transform\n" []]
      else s
    | none => s.null_deref
  else s

/-- The system `missile_system`. -/
def missile_system (sqrtf : F → F) (s : Exec F) : Exec F :=
  for_each_slot (missile_system_body sqrtf) (ecs_for_count s.ecs) 0 s

end Missile

/-- The function `countEnts`, loop part: slot `i` onwards, `count` so far (an
entity counts when it has a transform). -/
def countEnts_loop (w : Ecs F) : Nat → Nat → Nat → Nat
  | 0, _, count => count
  | fuel + 1, i, count =>
    if i < ecs_for_count w then
      countEnts_loop w fuel (i + 1)
        (if ecs_ent_has_component w (ecs_get_ent w i) COMPONENT_TRANSFORM then count + 1
         else count)
    else count

/-- The function `countEnts`. -/
def countEnts (w : Ecs F) : Nat := countEnts_loop w (ecs_for_count w) 0 0

/-- The function `register_components`. -/
def register_components (w : Ecs F) : Ecs F :=
  let w := ecs_register_component w COMPONENT_TRANSFORM 1000
  let w := ecs_register_component w COMPONENT_VELOCITY 200
  let w := ecs_register_component w COMPONENT_SPRITE 1000
  ecs_register_component w COMPONENT_TARGET 10

/-- The function `register_systems`. -/
def register_systems (w : Ecs F) : Ecs F :=
  let w := ecs_register_system w SystemId.movement_system ECS_SYSTEM_UPDATE
  let w := ecs_register_system w SystemId.missile_system ECS_SYSTEM_UPDATE
  ecs_register_system w SystemId.sprite_render_system ECS_SYSTEM_RENDER

section Main

variable [Add F] [Sub F] [Mul F] [Div F] [OfScientific F] [LT F]
  [DecidableRel (fun a b : F => a < b)] [Inhabited F]

/-- Call of a registered system callback. -/
def run_system (sqrtf : F → F) : SystemId → Exec F → Exec F
  | SystemId.movement_system, s => movement_system s
  | SystemId.missile_system, s => missile_system sqrtf s
  | SystemId.sprite_render_system, s => sprite_render_system s

/-- Modelled from the spec: `ecs_run_systems` of `ecs.h`: every system registered
under the phase runs once, in registration order, each to completion before the
next. -/
def ecs_run_systems (sqrtf : F → F) (s : Exec F) (ty : EcsSystemType) : Exec F :=
  s.ecs.systems.foldl
    (fun acc p => if p.2 = ty ∧ acc.fault = false then run_system sqrtf p.1 acc else acc) s

/-- The start of `main`, up to the main loop: the world with the ship (first
entity) and the missile (second entity) aimed at it. -/
def main_init : Option (Exec F) := do
  let ecs : Ecs F := ecs_make 1000 4 3
  let ecs := register_components ecs
  let ecs := register_systems ecs
  let (e, ecs) ← ecs_ent_make ecs
  let ecs := ecs_ent_add_component ecs e COMPONENT_TRANSFORM (.transform { x := 0.0, y := 0.0 })
  let ecs := ecs_ent_add_component ecs e COMPONENT_VELOCITY (.velocity { dx := 0.1, dy := 0.0 })
  let ecs := ecs_ent_add_component ecs e COMPONENT_SPRITE
    (.sprite { gl_id := 1, rotation := 0.0, name := "ship" })
  let (e2, ecs) ← ecs_ent_make ecs
  let ecs := ecs_ent_add_component ecs e2 COMPONENT_TRANSFORM (.transform { x := 4.0, y := 4.0 })
  let ecs := ecs_ent_add_component ecs e2 COMPONENT_VELOCITY (.velocity { dx := 0.0, dy := 0.0 })
  let ecs := ecs_ent_add_component ecs e2 COMPONENT_SPRITE
    (.sprite { gl_id := 2, rotation := 0.0, name := "" })
  let ecs := ecs_ent_add_component ecs e2 COMPONENT_TARGET (.target { target := e })
  some ((Exec.start ecs).emit [.ent_print e, .ent_print e2])

/-- One pass through the body of the main loop. -/
def main_tick (sqrtf : F → F) (s : Exec F) : Exec F :=
  let s := ecs_run_systems sqrtf s ECS_SYSTEM_UPDATE
  let s := ecs_run_systems sqrtf s ECS_SYSTEM_RENDER
  s.emit [.printf "------------------\n" []]

/-- The main loop `while (countEnts(ecs)) ...`; `fuel` bounds the number of
condition tests, and running out of it gives no result. -/
def main_loop (sqrtf : F → F) : Nat → Exec F → Option (Exec F)
  | 0, _ => none
  | fuel + 1, s =>
    if s.fault then some s
    else if countEnts s.ecs ≠ 0 then main_loop sqrtf fuel (main_tick sqrtf s)
    else some s

/-- The function `main`, up to the exit of the main loop. -/
def main (sqrtf : F → F) (fuel : Nat) : Option (Exec F) :=
  main_init >>= main_loop sqrtf fuel

end Main

end Systems

/-! ## Notions used in the statements -/

section Notions

variable {F : Type}

/-- The pool cell recorded for component `t` in slot `i`. -/
def Ecs.cell (w : Ecs F) (i : Nat) (t : ComponentType) : Nat := (w.slots i).component_slots t

/-- The data-model invariant of the runtime that a pool cell holds the data of
one entity only: two different slots that both own a component of type `t` record
different cells of pool `t`. -/
def cells_disjoint (w : Ecs F) : Prop :=
  ∀ (t : ComponentType) (i j : Nat), i ≠ j →
    ecs_ent_has_component w (ecs_get_ent w i) t = true →
    ecs_ent_has_component w (ecs_get_ent w j) t = true →
    w.cell i t ≠ w.cell j t

/-- The transform an entity in slot `i` has once its velocity has been added. -/
def moved [Add F] (w : Ecs F) (i : Nat) : CTransform F :=
  { x := (w.transforms (w.cell i COMPONENT_TRANSFORM)).x
      + (w.velocities (w.cell i COMPONENT_VELOCITY)).dx
    y := (w.transforms (w.cell i COMPONENT_TRANSFORM)).y
      + (w.velocities (w.cell i COMPONENT_VELOCITY)).dy }

/-- The number of live entities. -/
def live_count (w : Ecs F) : Nat :=
  (List.range w.max_entities).countP (fun j => (w.slots j).live)

/-- The handle stored in the target component of the entity in slot `i`. -/
def missile_target (w : Ecs F) (i : Nat) : EcsEnt :=
  (w.targets (w.cell i COMPONENT_TARGET)).target

/-- The x offset `tx` from the entity in slot `i` to its target. -/
def missile_tx [Sub F] (w : Ecs F) (i : Nat) : F :=
  (w.transforms (w.cell (missile_target w i).index COMPONENT_TRANSFORM)).x
    - (w.transforms (w.cell i COMPONENT_TRANSFORM)).x

/-- The y offset `ty` from the entity in slot `i` to its target. -/
def missile_ty [Sub F] (w : Ecs F) (i : Nat) : F :=
  (w.transforms (w.cell (missile_target w i).index COMPONENT_TRANSFORM)).y
    - (w.transforms (w.cell i COMPONENT_TRANSFORM)).y

/-- The distance `d` that `missile_system` computes for the entity in slot `i`. -/
def missile_distance [Add F] [Sub F] [Mul F] (sqrtf : F → F) (w : Ecs F) (i : Nat) : F :=
  sqrtf (missile_tx w i * missile_tx w i + missile_ty w i * missile_ty w i)

/-- The entity in slot `i` passes `MISSILE_SYSTEM_MASK` and its stored target is
valid and has a transform: the scan reaches line 109 for it. -/
def missile_aims (w : Ecs F) (i : Nat) : Bool :=
  ecs_ent_has_mask w (ecs_get_ent w i) MISSILE_SYSTEM_MASK
    && ecs_ent_is_valid w (missile_target w i)
    && ecs_ent_has_component w (missile_target w i) COMPONENT_TRANSFORM

/-- The world after the two velocity stores of lines 117 and 118 for slot `i`. -/
def missile_aimed [Add F] [Sub F] [Mul F] [Div F] [OfScientific F] (sqrtf : F → F)
    (w : Ecs F) (i : Nat) : Ecs F :=
  { w with
    velocities := Function.update w.velocities (w.cell i COMPONENT_VELOCITY)
      { dx := (missile_tx w i / missile_distance sqrtf w i) / 4.0
        dy := (missile_ty w i / missile_distance sqrtf w i) / 4.0 } }

/-- The missile in slot `i` fires: it aims, has a velocity to write to, and the
distance is below the threshold of line 120. -/
def missile_fires [Add F] [Sub F] [Mul F] [OfScientific F] [LT F]
    [DecidableRel (fun a b : F => a < b)] (sqrtf : F → F) (w : Ecs F) (i : Nat) : Bool :=
  missile_aims w i && ecs_ent_has_component w (ecs_get_ent w i) COMPONENT_VELOCITY
    && decide (missile_distance sqrtf w i < 0.2)

/-- The missile in slot `i` aims but has no velocity component: the store of line
117 goes through a null pointer. -/
def missile_faults (w : Ecs F) (i : Nat) : Bool :=
  missile_aims w i && !ecs_ent_has_component w (ecs_get_ent w i) COMPONENT_VELOCITY

/-- The world after the loop body of `missile_system` has run for slot `i`
(when it stops at a null pointer: the world at that point). -/
def missile_step [Add F] [Sub F] [Mul F] [Div F] [OfScientific F] [LT F]
    [DecidableRel (fun a b : F => a < b)] (sqrtf : F → F) (w : Ecs F) (i : Nat) : Ecs F :=
  if missile_aims w i && ecs_ent_has_component w (ecs_get_ent w i) COMPONENT_VELOCITY then
    if missile_distance sqrtf w i < 0.2 then
      ecs_ent_destroy (ecs_ent_destroy (missile_aimed sqrtf w i) (ecs_get_ent w i))
        (missile_target w i)
    else missile_aimed sqrtf w i
  else w

/-- The events of the loop body of `missile_system` for slot `i`, in program
order. -/
def missile_events [Add F] [Sub F] [Mul F] [Div F] [OfScientific F] [LT F]
    [DecidableRel (fun a b : F => a < b)] (sqrtf : F → F) (w : Ecs F) (i : Nat) :
    List (Event F) :=
  [Event.get_ent i, Event.has_mask (ecs_get_ent w i) MISSILE_SYSTEM_MASK] ++
  if ecs_ent_has_mask w (ecs_get_ent w i) MISSILE_SYSTEM_MASK then
    [Event.get_component (ecs_get_ent w i) COMPONENT_TARGET,
     Event.load COMPONENT_TARGET (w.cell i COMPONENT_TARGET),
     Event.is_valid (missile_target w i)] ++
    if ecs_ent_is_valid w (missile_target w i) then
      [Event.load COMPONENT_TARGET (w.cell i COMPONENT_TARGET),
       Event.has_component (missile_target w i) COMPONENT_TRANSFORM] ++
      if ecs_ent_has_component w (missile_target w i) COMPONENT_TRANSFORM then
        [Event.get_component (ecs_get_ent w i) COMPONENT_TRANSFORM,
         Event.get_component (ecs_get_ent w i) COMPONENT_VELOCITY,
         Event.load COMPONENT_TARGET (w.cell i COMPONENT_TARGET),
         Event.get_component (missile_target w i) COMPONENT_TRANSFORM,
         Event.load COMPONENT_TRANSFORM (w.cell (missile_target w i).index COMPONENT_TRANSFORM),
         Event.load COMPONENT_TRANSFORM (w.cell i COMPONENT_TRANSFORM),
         Event.load COMPONENT_TRANSFORM (w.cell (missile_target w i).index COMPONENT_TRANSFORM),
         Event.load COMPONENT_TRANSFORM (w.cell i COMPONENT_TRANSFORM),
         Event.divide (missile_tx w i) (missile_distance sqrtf w i)] ++
        if ecs_ent_has_component w (ecs_get_ent w i) COMPONENT_VELOCITY then
          [Event.store COMPONENT_VELOCITY (w.cell i COMPONENT_VELOCITY),
           Event.divide (missile_ty w i) (missile_distance sqrtf w i),
           Event.store COMPONENT_VELOCITY (w.cell i COMPONENT_VELOCITY),
           Event.printf "target distance %f\n" [PrintArg.float (missile_distance sqrtf w i)]] ++
          if missile_distance sqrtf w i < 0.2 then
            [Event.printf "BOOM!\n" [],
             Event.render_sprite (ecs_get_ent w i),
             Event.load COMPONENT_TARGET (w.cell i COMPONENT_TARGET),
             Event.render_sprite (missile_target w i),
             Event.destroy (ecs_get_ent w i),
             Event.load COMPONENT_TARGET (w.cell i COMPONENT_TARGET),
             Event.destroy (missile_target w i)]
          else []
        else []
      else [Event.printf "missile target has no transform\n" []]
    else []
  else []

/-- The state of one call of `missile_system` on world `w` when `k` iterations of
its scan have run (or the scan has stopped before that). -/
def missile_reach [Add F] [Sub F] [Mul F] [Div F] [OfScientific F] [LT F]
    [DecidableRel (fun a b : F => a < b)] (sqrtf : F → F) (w : Ecs F) (k : Nat) : Exec F :=
  for_each_slot (missile_system_body sqrtf) k 0 (Exec.start w)

/-- The slot an `ecs_get_ent` call examines. -/
def Event.examined : Event F → Option Nat
  | Event.get_ent i => some i
  | _ => none

/-- The event that opens the processing of the entity in slot `i` by
`missile_system`: the fetch of its target component at line 102. -/
def Event.starts_processing (i : Nat) : Event F → Bool
  | Event.get_component e COMPONENT_TARGET => e.index == i
  | _ => false

/-- The event is an `ecs_ent_has_component`, `ecs_ent_get_component` or
`ecs_ent_destroy` call on handle `t`. -/
def Event.uses (t : EcsEnt) : Event F → Bool
  | Event.has_component h _ => h == t
  | Event.get_component h _ => h == t
  | Event.destroy h => h == t
  | _ => false

/-- A new entity with the given components: `ecs_ent_make` followed by one
`ecs_ent_add_component` per piece of data (the world is left alone when it is
full). -/
def spawn (w : Ecs F) (cs : List (ComponentData F)) : EcsEnt × Ecs F :=
  match ecs_ent_make w with
  | some (e, w1) => (e, cs.foldl (fun acc c => ecs_ent_add_component acc e c.type c) w1)
  | none => ({ index := 0, generation := 0 }, w)

/-- An empty world with room for four entities, the four pools and the three
systems of the example registered. -/
def small_world [Inhabited F] : Ecs F :=
  register_systems (register_components (ecs_make 4 4 3))

/-- A missile in slot 0 that has a transform, a velocity and a target, and its
target in slot 1 that has a transform and a velocity. -/
def missile_then_target [Inhabited F] (missile_at target_at : CTransform F)
    (v : CVelocity F) : Ecs F :=
  let (m, w) := spawn small_world [.transform missile_at, .velocity v]
  let (t, w) := spawn w [.transform target_at, .velocity v]
  ecs_ent_add_component w m COMPONENT_TARGET (.target { target := t })

/-- Two missiles aimed at each other: slot 0 and slot 1 both have a transform, a
velocity and a target component that stores the handle of the other. -/
def missile_duel [Inhabited F] (first_at second_at : CTransform F) (v : CVelocity F) : Ecs F :=
  let (m, w) := spawn small_world [.transform first_at, .velocity v]
  let (t, w) := spawn w [.transform second_at, .velocity v]
  let w := ecs_ent_add_component w m COMPONENT_TARGET (.target { target := t })
  ecs_ent_add_component w t COMPONENT_TARGET (.target { target := m })

/-- A missile whose target has been destroyed: the world `missile_then_target`
after `ecs_ent_destroy` of the target in slot 1; the missile in slot 0 still
stores the handle. -/
def stale_target_world : Ecs Real :=
  ecs_ent_destroy
    (missile_then_target { x := 0, y := 0 } { x := 1, y := 0 } { dx := 0, dy := 0 })
    { index := 1, generation := 0 }

/-- Two missiles aimed at each other, the first at (0,0) and the second at
(0.1,0). -/
def duel_world : Ecs Real :=
  missile_duel { x := 0, y := 0 } { x := 0.1, y := 0 } { dx := 0, dy := 0 }

/-- A missile at (0,0) in slot 0 with its target at (0.1,0) in slot 1: the
distance is 0.1, below the threshold of line 120. -/
def point_blank_world : Ecs Real :=
  missile_then_target { x := 0, y := 0 } { x := 0.1, y := 0 } { dx := 0, dy := 0 }

/-- A missile without a velocity component: slot 0 has a transform at (4,4) and a
target component that stores the handle of slot 1, which has a transform at
(1,0). -/
def no_velocity_world : Ecs Real :=
  let (m, w) := spawn (small_world : Ecs Real) [.transform { x := 4, y := 4 }]
  let (t, w) := spawn w [.transform { x := 1, y := 0 }]
  ecs_ent_add_component w m COMPONENT_TARGET (.target { target := t })

/-- A missile whose target has no transform: slot 0 has a transform, a velocity
and a target component that stores the handle of slot 1, which has a velocity
only. -/
def no_transform_target_world : Ecs Real :=
  let (m, w) := spawn (small_world : Ecs Real) [.transform { x := 4, y := 4 }, .velocity { dx := 0, dy := 0 }]
  let (t, w) := spawn w [.velocity { dx := 0, dy := 0 }]
  ecs_ent_add_component w m COMPONENT_TARGET (.target { target := t })

/-- The message of the else branch at line 131. -/
def no_transform_message : Event F := Event.printf "missile target has no transform\n" []

/-- A world with one entity that has transform (0,0) and velocity (1,0), built
with the runtime calls. -/
def movement_example : Ecs Int :=
  match ecs_ent_make (register_components (ecs_make 1 4 3 : Ecs Int)) with
  | some (e, w) =>
    let w := ecs_ent_add_component w e COMPONENT_TRANSFORM (.transform { x := 0, y := 0 })
    ecs_ent_add_component w e COMPONENT_VELOCITY (.velocity { dx := 1, dy := 0 })
  | none => ecs_make 1 4 3

end Notions

/-! ## The main loop on the world `main` builds -/

/-- The execution state `main` enters its loop with. -/
def main_start : Exec Real :=
  (main_init (F := Real)).getD (Exec.start (ecs_make 0 0 0))

/-- The worlds the main loop passes through while both entities live: the world
`main` builds with the ship's transform (cell 0), the missile's transform (cell
1) and the missile's velocity (cell 1) replaced. -/
def chase_world (p q : CTransform Real) (v : CVelocity Real) : Ecs Real :=
  { main_start.ecs with
    transforms := Function.update (Function.update main_start.ecs.transforms 0 p) 1 q
    velocities := Function.update main_start.ecs.velocities 1 v }

/-- The world after the loop body of `movement_system` has run for slot `i`. -/
def movement_step {F : Type} [Add F] (w : Ecs F) (i : Nat) : Ecs F :=
  if ecs_ent_has_mask w (ecs_get_ent w i) MOVEMENT_SYSTEM_MASK then
    { w with
      transforms := Function.update w.transforms (w.cell i COMPONENT_TRANSFORM)
        { x := (w.transforms (w.cell i COMPONENT_TRANSFORM)).x
            + (w.velocities (w.cell i COMPONENT_VELOCITY)).dx
          y := (w.transforms (w.cell i COMPONENT_TRANSFORM)).y
            + (w.velocities (w.cell i COMPONENT_VELOCITY)).dy } }
  else w

/-- The main loop, entered in state `s`, runs `m` passes and exits: before each of
the passes there is no fault and `countEnts` is not zero; the distance measured
by `missile_system` for the missile in slot 1 is not below 0.2 in the passes
before the last and is below 0.2 in the last; after the last pass there is no
fault, `countEnts` is zero, the handles of the ship and of the missile are not
valid, and two entities fewer are live than `main` created. -/
def main_loop_exit_at (s : Exec Real) (m : Nat) : Prop :=
  (∀ k, k < m → ((main_tick Real.sqrt)^[k] s).fault = false
      ∧ countEnts ((main_tick Real.sqrt)^[k] s).ecs ≠ 0)
  ∧ (∀ k, k + 1 < m →
      ¬ missile_distance Real.sqrt (movement_system ((main_tick Real.sqrt)^[k] s)).ecs 1 < 0.2)
  ∧ missile_distance Real.sqrt (movement_system ((main_tick Real.sqrt)^[m - 1] s)).ecs 1 < 0.2
  ∧ ((main_tick Real.sqrt)^[m] s).fault = false
  ∧ countEnts ((main_tick Real.sqrt)^[m] s).ecs = 0
  ∧ ecs_ent_is_valid ((main_tick Real.sqrt)^[m] s).ecs (ecs_get_ent main_start.ecs 0) = false
  ∧ ecs_ent_is_valid ((main_tick Real.sqrt)^[m] s).ecs (ecs_get_ent main_start.ecs 1) = false
  ∧ live_count ((main_tick Real.sqrt)^[m] s).ecs + 2 = live_count main_start.ecs

/-! ## Facts about the runtime calls -/

section RuntimeFacts

variable {F : Type}

theorem remove_component_frame (w : Ecs F) (e : EcsEnt) (t : ComponentType) :
    (ecs_ent_remove_component w e t).max_entities = w.max_entities
    ∧ (ecs_ent_remove_component w e t).count = w.count
    ∧ (ecs_ent_remove_component w e t).transforms = w.transforms
    ∧ (ecs_ent_remove_component w e t).velocities = w.velocities
    ∧ (ecs_ent_remove_component w e t).sprites = w.sprites
    ∧ (ecs_ent_remove_component w e t).targets = w.targets
    ∧ (ecs_ent_remove_component w e t).systems = w.systems
    ∧ (ecs_ent_remove_component w e t).free_list = w.free_list
    ∧ (∀ j, j ≠ e.index → (ecs_ent_remove_component w e t).slots j = w.slots j)
    ∧ ((ecs_ent_remove_component w e t).slots e.index).generation = (w.slots e.index).generation
    ∧ ((ecs_ent_remove_component w e t).slots e.index).live = (w.slots e.index).live := by
  unfold ecs_ent_remove_component
  split
  · refine ⟨rfl, rfl, rfl, rfl, rfl, rfl, rfl, rfl, ?_, ?_, ?_⟩
    · intro j hj
      simp [Function.update_noteq hj]
    · simp
    · simp
  · simp

theorem has_mask_valid (w : Ecs F) (e : EcsEnt) (m : List ComponentType)
    (h : ecs_ent_has_mask w e m = true) : ecs_ent_is_valid w e = true := by
  simp only [ecs_ent_has_mask, Bool.and_eq_true] at h
  exact h.1

theorem dead_slot_invalid (w : Ecs F) (x : EcsEnt) (h : (w.slots x.index).live = false) :
    ecs_ent_is_valid w x = false ∧ ∀ c, ecs_ent_has_component w x c = false := by
  have hv : ecs_ent_is_valid w x = false := by
    simp only [ecs_ent_is_valid, h, Bool.and_false]
  exact ⟨hv, fun c => by simp only [ecs_ent_has_component, hv, Bool.false_and]⟩

end RuntimeFacts

/-! ## Facts about the scan -/

section Scan

variable {F : Type}

theorem for_each_slot_stop (body : Exec F → Nat → Exec F) (fuel i : Nat) (s : Exec F)
    (h : s.fault = true ∨ ecs_for_count s.ecs ≤ i) : for_each_slot body fuel i s = s := by
  cases fuel with
  | zero => rfl
  | succ n =>
    rcases h with h | h
    · simp [for_each_slot, h]
    · simp [for_each_slot, Nat.not_lt.mpr h]

theorem for_each_slot_step (body : Exec F → Nat → Exec F) (fuel i : Nat) (s : Exec F)
    (hf : s.fault = false) (hi : i < ecs_for_count s.ecs) :
    for_each_slot body (fuel + 1) i s = for_each_slot body fuel (i + 1) (body s i) := by
  simp [for_each_slot, hf, hi]

theorem for_each_slot_add (body : Exec F → Nat → Exec F) (a b : Nat) :
    ∀ (i : Nat) (s : Exec F),
      for_each_slot body (a + b) i s = for_each_slot body b (i + a) (for_each_slot body a i s) := by
  induction a with
  | zero => intro i s; simp [for_each_slot]
  | succ a ih =>
    intro i s
    by_cases hc : s.fault = false ∧ i < ecs_for_count s.ecs
    · rw [show a + 1 + b = (a + b) + 1 by omega, for_each_slot_step body _ i s hc.1 hc.2,
        for_each_slot_step body _ i s hc.1 hc.2, ih]
      congr 1
      omega
    · have hstop : s.fault = true ∨ ecs_for_count s.ecs ≤ i := by
        by_cases hf : s.fault = true
        · exact Or.inl hf
        · right
          simp only [Bool.not_eq_true] at hf
          exact Nat.not_lt.mp (fun h => hc ⟨hf, h⟩)
      rw [for_each_slot_stop body _ i s hstop, for_each_slot_stop body _ i s hstop]
      exact (for_each_slot_stop body _ _ s (hstop.imp id (fun h => by omega))).symm

theorem for_each_slot_count (body : Exec F → Nat → Exec F)
    (hcount : ∀ s i, ecs_for_count (body s i).ecs = ecs_for_count s.ecs) (fuel : Nat) :
    ∀ (i : Nat) (s : Exec F),
      ecs_for_count (for_each_slot body fuel i s).ecs = ecs_for_count s.ecs := by
  induction fuel with
  | zero => intro i s; rfl
  | succ n ih =>
    intro i s
    unfold for_each_slot
    split
    · rw [ih, hcount]
    · rfl

/-- After `fuel` iterations from index `i` the scan has stopped for good, or it
stands at index `i + fuel` having run every iteration. -/
theorem for_each_slot_fuel (body : Exec F → Nat → Exec F)
    (hcount : ∀ s i, ecs_for_count (body s i).ecs = ecs_for_count s.ecs)
    (fuel i k : Nat) (s : Exec F) (h : ecs_for_count s.ecs ≤ i + fuel) :
    for_each_slot body (fuel + k) i s = for_each_slot body fuel i s := by
  rw [for_each_slot_add]
  apply for_each_slot_stop
  right
  rw [for_each_slot_count body hcount]
  exact h

theorem for_each_slot_preserves (body : Exec F → Nat → Exec F) (P : Exec F → Prop)
    (hbody : ∀ s i, P s → P (body s i)) (fuel : Nat) :
    ∀ (i : Nat) (s : Exec F), P s → P (for_each_slot body fuel i s) := by
  induction fuel with
  | zero => intro i s h; exact h
  | succ n ih =>
    intro i s h
    unfold for_each_slot
    split
    · exact ih _ _ (hbody s i h)
    · exact h

end Scan

/-! ## The movement system -/

section Movement

variable {F : Type}

@[simp] theorem ecs_get_ent_index (w : Ecs F) (i : Nat) : (ecs_get_ent w i).index = i := rfl

@[simp] theorem ecs_get_ent_generation (w : Ecs F) (i : Nat) :
    (ecs_get_ent w i).generation = (w.slots i).generation := rfl

theorem has_mask_pair (w : Ecs F) (e : EcsEnt) (a b : ComponentType) :
    ecs_ent_has_mask w e [a, b] = true ↔
      ecs_ent_has_component w e a = true ∧ ecs_ent_has_component w e b = true := by
  simp only [ecs_ent_has_mask, ecs_ent_has_component, List.all_cons, List.all_nil,
    Bool.and_true, Bool.and_eq_true]
  tauto

theorem movement_body_spec [Add F] (s : Exec F) (i : Nat) :
    (movement_system_body s i).fault = s.fault
    ∧ (movement_system_body s i).ecs =
      if ecs_ent_has_mask s.ecs (ecs_get_ent s.ecs i) MOVEMENT_SYSTEM_MASK then
        { s.ecs with
          transforms := Function.update s.ecs.transforms (s.ecs.cell i COMPONENT_TRANSFORM)
            { x := (s.ecs.transforms (s.ecs.cell i COMPONENT_TRANSFORM)).x
                + (s.ecs.velocities (s.ecs.cell i COMPONENT_VELOCITY)).dx
              y := (s.ecs.transforms (s.ecs.cell i COMPONENT_TRANSFORM)).y
                + (s.ecs.velocities (s.ecs.cell i COMPONENT_VELOCITY)).dy } }
      else s.ecs := by
  by_cases h : ecs_ent_has_mask s.ecs (ecs_get_ent s.ecs i) MOVEMENT_SYSTEM_MASK = true
  · have h2 := (has_mask_pair _ _ _ _).mp h
    simp [movement_system_body, Exec.emit, Exec.put, Exec.null_deref, h, ecs_ent_get_component,
      h2.1, h2.2, Ecs.cell]
  · simp [movement_system_body, Exec.emit, h]

theorem movement_body_count [Add F] (s : Exec F) (i : Nat) :
    ecs_for_count (movement_system_body s i).ecs = ecs_for_count s.ecs := by
  rw [(movement_body_spec s i).2]
  split <;> rfl

theorem for_each_slot_succ (body : Exec F → Nat → Exec F) (k : Nat) (s : Exec F)
    (hf : (for_each_slot body k 0 s).fault = false)
    (hk : k < ecs_for_count (for_each_slot body k 0 s).ecs) :
    for_each_slot body (k + 1) 0 s = body (for_each_slot body k 0 s) k := by
  rw [for_each_slot_add body k 1 0 s, Nat.zero_add, for_each_slot_step body 0 k _ hf hk]
  rfl

theorem movement_scan_inv [Add F] (w : Ecs F) (hwf : cells_disjoint w) (k : Nat)
    (hk : k ≤ ecs_for_count w) :
    (for_each_slot movement_system_body k 0 (Exec.start w)).fault = false
    ∧ (∃ T, (for_each_slot movement_system_body k 0 (Exec.start w)).ecs
          = { w with transforms := T }
        ∧ (∀ i, i < k → ecs_ent_has_mask w (ecs_get_ent w i) MOVEMENT_SYSTEM_MASK = true →
            T (w.cell i COMPONENT_TRANSFORM) = moved w i)
        ∧ (∀ c, (∀ i, i < k → ecs_ent_has_mask w (ecs_get_ent w i) MOVEMENT_SYSTEM_MASK = true →
            w.cell i COMPONENT_TRANSFORM ≠ c) → T c = w.transforms c)) := by
  induction k with
  | zero =>
    refine ⟨rfl, w.transforms, rfl, ?_, ?_⟩
    · intro i hi; omega
    · intro c _; rfl
  | succ k ih =>
    obtain ⟨hf, T, hT, hm, hu⟩ := ih (by omega)
    have hlt : k < ecs_for_count (for_each_slot movement_system_body k 0 (Exec.start w)).ecs := by
      rw [hT]; exact hk
    rw [for_each_slot_succ _ k _ hf hlt]
    obtain ⟨hbf, hbe⟩ := movement_body_spec (for_each_slot movement_system_body k 0 (Exec.start w)) k
    refine ⟨hbf.trans hf, ?_⟩
    rw [hbe, hT]
    have hmask : ecs_ent_has_mask ({ w with transforms := T } : Ecs F)
        (ecs_get_ent ({ w with transforms := T } : Ecs F) k) MOVEMENT_SYSTEM_MASK
        = ecs_ent_has_mask w (ecs_get_ent w k) MOVEMENT_SYSTEM_MASK := rfl
    rw [hmask]
    by_cases hel : ecs_ent_has_mask w (ecs_get_ent w k) MOVEMENT_SYSTEM_MASK = true
    · rw [if_pos hel]
      have hdis : ∀ i, i < k → ecs_ent_has_mask w (ecs_get_ent w i) MOVEMENT_SYSTEM_MASK = true →
          w.cell i COMPONENT_TRANSFORM ≠ w.cell k COMPONENT_TRANSFORM := by
        intro i hi hmi
        exact hwf COMPONENT_TRANSFORM i k (by omega)
          ((has_mask_pair _ _ _ _).mp hmi).1 ((has_mask_pair _ _ _ _).mp hel).1
      have hTk : T (w.cell k COMPONENT_TRANSFORM) = w.transforms (w.cell k COMPONENT_TRANSFORM) :=
        hu _ hdis
      refine ⟨_, rfl, ?_, ?_⟩
      · intro i hi hmi
        by_cases hik : i = k
        · subst hik
          show Function.update T (w.cell i COMPONENT_TRANSFORM) _ (w.cell i COMPONENT_TRANSFORM) = _
          rw [Function.update_same]
          show ({ x := (T (w.cell i COMPONENT_TRANSFORM)).x + _,
                  y := (T (w.cell i COMPONENT_TRANSFORM)).y + _ } : CTransform F) = _
          rw [hTk]
          rfl
        · show Function.update T (w.cell k COMPONENT_TRANSFORM) _ (w.cell i COMPONENT_TRANSFORM) = _
          rw [Function.update_noteq (hdis i (by omega) hmi)]
          exact hm i (by omega) hmi
      · intro c hc
        show Function.update T (w.cell k COMPONENT_TRANSFORM) _ c = _
        rw [Function.update_noteq (fun h => hc k (by omega) hel h.symm)]
        exact hu c (fun i hi hmi => hc i (by omega) hmi)
    · rw [if_neg hel]
      refine ⟨T, rfl, ?_, ?_⟩
      · intro i hi hmi
        have : i ≠ k := fun h => hel (h ▸ hmi)
        exact hm i (by omega) hmi
      · intro c hc
        exact hu c (fun i hi hmi => hc i (by omega) hmi)

theorem movement_example_disjoint : cells_disjoint movement_example := by
  intro t i j hij hi hj
  have hi1 : (ecs_get_ent movement_example i).index < movement_example.max_entities := by
    have := hi
    simp only [ecs_ent_has_component, ecs_ent_is_valid, Bool.and_eq_true, decide_eq_true_eq] at this
    exact this.1.1.1
  have hj1 : (ecs_get_ent movement_example j).index < movement_example.max_entities := by
    have := hj
    simp only [ecs_ent_has_component, ecs_ent_is_valid, Bool.and_eq_true, decide_eq_true_eq] at this
    exact this.1.1.1
  have hmax : movement_example.max_entities = 1 := by decide
  rw [hmax] at hi1 hj1
  simp only [ecs_get_ent_index] at hi1 hj1
  omega

/-- C2: one call of `movement_system` runs to completion without a null
dereference (more fuel changes nothing), adds the velocity to the transform once
for each entity in the scanned slots that passes `MOVEMENT_SYSTEM_MASK`, leaves the
transform of every other entity that has one as it was, and leaves every
velocity and every slot (mask, liveness, generation, cell indices), indeed every
part of the world other than the transform cells, unchanged. -/
theorem C2_movement_system_adds_velocity_once [Add F] (w : Ecs F) (hwf : cells_disjoint w) :
    (∀ k, for_each_slot movement_system_body (ecs_for_count w + k) 0 (Exec.start w)
        = movement_system (Exec.start w))
    ∧ (movement_system (Exec.start w)).fault = false
    ∧ (∀ i, i < ecs_for_count w →
        ecs_ent_has_mask w (ecs_get_ent w i) MOVEMENT_SYSTEM_MASK = true →
        (movement_system (Exec.start w)).ecs.transforms (w.cell i COMPONENT_TRANSFORM)
          = { x := (w.transforms (w.cell i COMPONENT_TRANSFORM)).x
                + (w.velocities (w.cell i COMPONENT_VELOCITY)).dx
              y := (w.transforms (w.cell i COMPONENT_TRANSFORM)).y
                + (w.velocities (w.cell i COMPONENT_VELOCITY)).dy })
    ∧ (∀ i, ecs_ent_has_component w (ecs_get_ent w i) COMPONENT_TRANSFORM = true →
        ¬ (i < ecs_for_count w
            ∧ ecs_ent_has_mask w (ecs_get_ent w i) MOVEMENT_SYSTEM_MASK = true) →
        (movement_system (Exec.start w)).ecs.transforms (w.cell i COMPONENT_TRANSFORM)
          = w.transforms (w.cell i COMPONENT_TRANSFORM))
    ∧ (movement_system (Exec.start w)).ecs.velocities = w.velocities
    ∧ (movement_system (Exec.start w)).ecs.slots = w.slots
    ∧ (movement_system (Exec.start w)).ecs
        = { w with transforms := (movement_system (Exec.start w)).ecs.transforms } := by
  obtain ⟨hf, T, hT, hm, hu⟩ := movement_scan_inv w hwf (ecs_for_count w) (Nat.le_refl _)
  have hdef : movement_system (Exec.start w)
      = for_each_slot movement_system_body (ecs_for_count w) 0 (Exec.start w) := rfl
  refine ⟨?_, ?_, ?_, ?_, ?_, ?_, ?_⟩
  · intro k
    rw [hdef]
    exact for_each_slot_fuel _ movement_body_count _ 0 k _ (by simp [Exec.start])
  · rw [hdef]; exact hf
  · intro i hi hmi
    rw [hdef, hT]
    exact hm i hi hmi
  · intro i hci hni
    rw [hdef, hT]
    apply hu
    intro j hj hmj heq
    by_cases hji : j = i
    · subst hji
      exact hni ⟨hj, hmj⟩
    · exact hwf COMPONENT_TRANSFORM j i hji ((has_mask_pair _ _ _ _).mp hmj).1 hci heq
  · rw [hdef, hT]
  · rw [hdef, hT]
  · rw [hdef, hT]

/-- C2, the scenario of the claim: in the world with one entity at transform (0,0)
with velocity (1,0), the transform is (1,0) after one call of `movement_system`. -/
theorem C2_movement_system_witness :
    cells_disjoint movement_example
    ∧ (movement_system (Exec.start movement_example)).ecs.transforms 0
        = { x := 1, y := 0 } :=
  ⟨movement_example_disjoint,
   (C2_movement_system_adds_velocity_once movement_example movement_example_disjoint).2.2.1 0
     (by decide) (by decide)⟩

end Movement

/-! ## Destroying an entity -/

section Destroy

variable {F : Type}

theorem remove_components_frame (e : EcsEnt) (ts : List ComponentType) :
    ∀ w : Ecs F,
    (ts.foldl (fun acc t => ecs_ent_remove_component acc e t) w).max_entities = w.max_entities
    ∧ (ts.foldl (fun acc t => ecs_ent_remove_component acc e t) w).count = w.count
    ∧ (ts.foldl (fun acc t => ecs_ent_remove_component acc e t) w).transforms = w.transforms
    ∧ (ts.foldl (fun acc t => ecs_ent_remove_component acc e t) w).velocities = w.velocities
    ∧ (ts.foldl (fun acc t => ecs_ent_remove_component acc e t) w).sprites = w.sprites
    ∧ (ts.foldl (fun acc t => ecs_ent_remove_component acc e t) w).targets = w.targets
    ∧ (ts.foldl (fun acc t => ecs_ent_remove_component acc e t) w).systems = w.systems
    ∧ (ts.foldl (fun acc t => ecs_ent_remove_component acc e t) w).free_list = w.free_list
    ∧ (∀ j, j ≠ e.index →
        (ts.foldl (fun acc t => ecs_ent_remove_component acc e t) w).slots j = w.slots j) := by
  induction ts with
  | nil => intro w; simp
  | cons t ts ih =>
    intro w
    obtain ⟨h1, h2, h3, h4, h5, h6, h7, h8, h9⟩ := ih (ecs_ent_remove_component w e t)
    obtain ⟨g1, g2, g3, g4, g5, g6, g7, g8, g9, _, _⟩ := remove_component_frame w e t
    simp only [List.foldl_cons]
    refine ⟨h1.trans g1, h2.trans g2, h3.trans g3, h4.trans g4, h5.trans g5, h6.trans g6,
      h7.trans g7, h8.trans g8, fun j hj => (h9 j hj).trans (g9 j hj)⟩

/-- What `ecs_ent_destroy` leaves alone: the limits, the number of reserved slots,
every pool cell, the registry, and every slot but the destroyed one. -/
theorem destroy_frame (w : Ecs F) (e : EcsEnt) :
    (ecs_ent_destroy w e).max_entities = w.max_entities
    ∧ (ecs_ent_destroy w e).count = w.count
    ∧ (ecs_ent_destroy w e).transforms = w.transforms
    ∧ (ecs_ent_destroy w e).velocities = w.velocities
    ∧ (ecs_ent_destroy w e).sprites = w.sprites
    ∧ (ecs_ent_destroy w e).targets = w.targets
    ∧ (ecs_ent_destroy w e).systems = w.systems
    ∧ (∀ j, j ≠ e.index → (ecs_ent_destroy w e).slots j = w.slots j) := by
  unfold ecs_ent_destroy
  split
  · obtain ⟨h1, h2, h3, h4, h5, h6, h7, _, h9⟩ := remove_components_frame e
      [COMPONENT_TRANSFORM, COMPONENT_VELOCITY, COMPONENT_SPRITE, COMPONENT_TARGET] w
    refine ⟨h1, h2, h3, h4, h5, h6, h7, ?_⟩
    intro j hj
    simp only [Function.update_noteq hj]
    exact h9 j hj
  · exact ⟨rfl, rfl, rfl, rfl, rfl, rfl, rfl, fun _ _ => rfl⟩

theorem destroy_targets (w : Ecs F) (e : EcsEnt) :
    (ecs_ent_destroy w e).targets = w.targets := (destroy_frame w e).2.2.2.2.2.1

theorem destroy_invalid (w : Ecs F) (e : EcsEnt) (h : ecs_ent_is_valid w e = false) :
    ecs_ent_destroy w e = w := by
  simp [ecs_ent_destroy, h]

/-- The slot of a destroyed entity is dead and owns nothing. -/
theorem destroy_slot (w : Ecs F) (e : EcsEnt) (h : ecs_ent_is_valid w e = true) :
    ((ecs_ent_destroy w e).slots e.index).live = false
    ∧ ((ecs_ent_destroy w e).slots e.index).mask = fun _ => false := by
  simp [ecs_ent_destroy, h]

theorem destroy_count (w : Ecs F) (e : EcsEnt) :
    ecs_for_count (ecs_ent_destroy w e) = ecs_for_count w := (destroy_frame w e).2.1

/-- Destroying never makes a handle valid, and a handle that is valid afterwards
sits in a slot the destruction did not touch. -/
theorem destroy_valid_mono (w : Ecs F) (e x : EcsEnt)
    (h : ecs_ent_is_valid (ecs_ent_destroy w e) x = true) :
    ecs_ent_is_valid w x = true ∧ (ecs_ent_destroy w e).slots x.index = w.slots x.index := by
  by_cases hv : ecs_ent_is_valid w e = true
  · have hne : x.index ≠ e.index := by
      intro heq
      have hl := (destroy_slot w e hv).1
      simp only [ecs_ent_is_valid, Bool.and_eq_true] at h
      rw [heq, hl] at h
      exact absurd h.2 (by simp)
    have hs := (destroy_frame w e).2.2.2.2.2.2.2 x.index hne
    refine ⟨?_, hs⟩
    simp only [ecs_ent_is_valid, (destroy_frame w e).1, hs] at h
    exact h
  · simp only [Bool.not_eq_true] at hv
    rw [destroy_invalid w e hv] at h ⊢
    exact ⟨h, rfl⟩

theorem destroy_slots_cases (w : Ecs F) (e : EcsEnt) (j : Nat) :
    (ecs_ent_destroy w e).slots j = w.slots j ∨ ((ecs_ent_destroy w e).slots j).live = false := by
  by_cases hv : ecs_ent_is_valid w e = true
  · by_cases hj : j = e.index
    · right
      rw [hj]
      exact (destroy_slot w e hv).1
    · left
      exact (destroy_frame w e).2.2.2.2.2.2.2 j hj
  · left
    simp only [Bool.not_eq_true] at hv
    rw [destroy_invalid w e hv]

end Destroy

/-! ## Worlds that agree on a slot -/

section Agree

variable {F : Type}

theorem is_valid_congr (w w' : Ecs F) (e : EcsEnt) (h1 : w'.max_entities = w.max_entities)
    (h2 : w'.slots e.index = w.slots e.index) : ecs_ent_is_valid w' e = ecs_ent_is_valid w e := by
  simp only [ecs_ent_is_valid, h1, h2]

/-- Destroying a live entity lowers the number of live entities by one. -/
theorem destroy_live_count (w : Ecs F) (e : EcsEnt) (h : ecs_ent_is_valid w e = true) :
    live_count (ecs_ent_destroy w e) + 1 = live_count w := by
  have hlt : e.index < w.max_entities := by
    simp only [ecs_ent_is_valid, Bool.and_eq_true, decide_eq_true_eq] at h
    exact h.1.1
  have hlive : (w.slots e.index).live = true := by
    simp only [ecs_ent_is_valid, Bool.and_eq_true] at h
    exact h.2
  have hdead := (destroy_slot w e h).1
  have hoff := (destroy_frame w e).2.2.2.2.2.2.2
  have key : ∀ n,
      (List.range n).countP (fun j => ((ecs_ent_destroy w e).slots j).live)
        + (if e.index < n then 1 else 0)
        = (List.range n).countP (fun j => (w.slots j).live) := by
    intro n
    induction n with
    | zero => simp
    | succ n ih =>
      rw [List.range_succ, List.countP_append, List.countP_append]
      by_cases hn : n = e.index
      · subst hn
        simp only [List.countP_singleton, hdead, hlive, Nat.lt_irrefl, if_false, if_true,
          Nat.lt_succ_self, Nat.add_zero] at ih ⊢
        simp
        omega
      · have hs : (ecs_ent_destroy w e).slots n = w.slots n := hoff n hn
        simp only [List.countP_singleton, hs]
        by_cases hlt2 : e.index < n
        · have : e.index < n + 1 := by omega
          simp only [hlt2, this, if_true] at ih ⊢
          omega
        · have : ¬ e.index < n + 1 := by omega
          simp only [hlt2, this, if_false] at ih ⊢
          omega
  have := key w.max_entities
  simp only [hlt, if_true] at this
  unfold live_count
  rw [(destroy_frame w e).1]
  exact this

end Agree

/-! ## The loop body of the missile system -/

section MissileBody

variable {F : Type} [Add F] [Sub F] [Mul F] [Div F] [OfScientific F] [LT F]
  [DecidableRel (fun a b : F => a < b)]

/-- The loop body of `missile_system`, split into its effect on the world, the
events it adds and whether it stops at a null pointer. -/
theorem missile_body_eq (sqrtf : F → F) (s : Exec F) (i : Nat) :
    missile_system_body sqrtf s i
      = { ecs := missile_step sqrtf s.ecs i
          trace := s.trace ++ missile_events sqrtf s.ecs i
          fault := s.fault || missile_faults s.ecs i } := by
  by_cases hm : ecs_ent_has_mask s.ecs (ecs_get_ent s.ecs i) MISSILE_SYSTEM_MASK = true
  · have hm2 := (has_mask_pair _ _ _ _).mp hm
    by_cases hv : ecs_ent_is_valid s.ecs (missile_target s.ecs i) = true
    · by_cases ht : ecs_ent_has_component s.ecs (missile_target s.ecs i) COMPONENT_TRANSFORM = true
      · by_cases hvel : ecs_ent_has_component s.ecs (ecs_get_ent s.ecs i) COMPONENT_VELOCITY = true
        · by_cases hd : missile_distance sqrtf s.ecs i < 0.2
          · simp only [missile_distance, missile_tx, missile_ty, missile_target, Ecs.cell]
              at hv ht hd
            simp [missile_system_body, missile_system_home, missile_system_boom, Exec.emit,
              Exec.put, Exec.null_deref, hm, hm2.1, hm2.2, hv, ht, hvel, hd,
              ecs_ent_get_component, missile_step, missile_events, missile_faults, missile_aims,
              missile_distance, missile_tx, missile_ty, missile_target, Ecs.cell, missile_aimed,
              destroy_targets]
          · simp only [missile_distance, missile_tx, missile_ty, missile_target, Ecs.cell]
              at hv ht hd
            simp [missile_system_body, missile_system_home, missile_system_boom, Exec.emit,
              Exec.put, Exec.null_deref, hm, hm2.1, hm2.2, hv, ht, hvel, hd,
              ecs_ent_get_component, missile_step, missile_events, missile_faults, missile_aims,
              missile_distance, missile_tx, missile_ty, missile_target, Ecs.cell, missile_aimed]
        · simp only [missile_target, Ecs.cell] at hv ht
          simp [missile_system_body, missile_system_home, missile_system_boom, Exec.emit,
              Exec.put, Exec.null_deref, hm, hm2.1, hm2.2, hv, ht, hvel,
              ecs_ent_get_component, missile_step, missile_events, missile_faults, missile_aims,
              missile_distance, missile_tx, missile_ty, missile_target, Ecs.cell]
      · simp only [missile_target, Ecs.cell] at hv ht
        simp [missile_system_body, missile_system_home, missile_system_boom, Exec.emit,
              Exec.put, Exec.null_deref, hm, hm2.1, hm2.2, hv, ht,
              ecs_ent_get_component, missile_step, missile_events, missile_faults, missile_aims,
              missile_target, Ecs.cell]
    · simp only [missile_target, Ecs.cell] at hv
      simp [missile_system_body, Exec.emit, Exec.put, Exec.null_deref, hm, hm2.2, hv,
        ecs_ent_get_component, missile_step, missile_events, missile_faults, missile_aims,
        missile_target, Ecs.cell]
  · simp [missile_system_body, Exec.emit, hm, missile_step, missile_events, missile_faults,
      missile_aims]

theorem missile_step_count (sqrtf : F → F) (w : Ecs F) (i : Nat) :
    ecs_for_count (missile_step sqrtf w i) = ecs_for_count w := by
  unfold missile_step
  split
  · split
    · rw [destroy_count, destroy_count]; rfl
    · rfl
  · rfl

theorem missile_body_count (sqrtf : F → F) (s : Exec F) (i : Nat) :
    ecs_for_count (missile_system_body sqrtf s i).ecs = ecs_for_count s.ecs := by
  rw [missile_body_eq]
  exact missile_step_count sqrtf s.ecs i

theorem missile_system_eq_reach (sqrtf : F → F) (w : Ecs F) :
    missile_system sqrtf (Exec.start w) = missile_reach sqrtf w (ecs_for_count w) := rfl

theorem missile_reach_count (sqrtf : F → F) (w : Ecs F) (k : Nat) :
    ecs_for_count (missile_reach sqrtf w k).ecs = ecs_for_count w :=
  for_each_slot_count _ (missile_body_count sqrtf) k 0 _

theorem missile_reach_succ (sqrtf : F → F) (w : Ecs F) (k : Nat)
    (hf : (missile_reach sqrtf w k).fault = false) (hk : k < ecs_for_count w) :
    missile_reach sqrtf w (k + 1) = missile_system_body sqrtf (missile_reach sqrtf w k) k :=
  for_each_slot_succ _ k _ hf (by rw [← missile_reach_count sqrtf w k] at hk; exact hk)

theorem missile_reach_fault (sqrtf : F → F) (w : Ecs F) (k m : Nat)
    (hf : (missile_reach sqrtf w k).fault = true) :
    missile_reach sqrtf w (k + m) = missile_reach sqrtf w k := by
  unfold missile_reach at hf ⊢
  rw [for_each_slot_add]
  exact for_each_slot_stop _ _ _ _ (Or.inl hf)

/-- A call that ends without a fault had no fault at any earlier point. -/
theorem missile_reach_no_fault (sqrtf : F → F) (w : Ecs F) (k n : Nat) (hkn : k ≤ n)
    (hf : (missile_reach sqrtf w n).fault = false) : (missile_reach sqrtf w k).fault = false := by
  by_contra h
  simp only [Bool.not_eq_false] at h
  have := missile_reach_fault sqrtf w k (n - k) h
  rw [show k + (n - k) = n by omega] at this
  rw [this, h] at hf
  exact absurd hf (by simp)

theorem missile_step_valid_mono (sqrtf : F → F) (w : Ecs F) (i : Nat) (x : EcsEnt)
    (h : ecs_ent_is_valid (missile_step sqrtf w i) x = true) : ecs_ent_is_valid w x = true := by
  unfold missile_step at h
  split at h
  · split at h
    · exact (destroy_valid_mono _ _ _ (destroy_valid_mono _ _ _ h).1).1
    · exact h
  · exact h

/-- Every `ecs_ent_has_component`, `ecs_ent_get_component` and `ecs_ent_destroy`
call of the loop body is on a handle that is valid when the body starts. -/
theorem missile_events_uses_valid (sqrtf : F → F) (w : Ecs F) (i : Nat) (t : EcsEnt)
    (ht : ecs_ent_is_valid w t = false) :
    ∀ ev ∈ missile_events sqrtf w i, Event.uses t ev = false := by
  intro ev hev
  have hne1 : ecs_ent_has_mask w (ecs_get_ent w i) MISSILE_SYSTEM_MASK = true →
      (ecs_get_ent w i == t) = false := by
    intro hm
    rw [beq_eq_false_iff_ne]
    intro heq
    rw [← heq, has_mask_valid _ _ _ hm] at ht
    exact absurd ht (by simp)
  have hne2 : ecs_ent_is_valid w (missile_target w i) = true →
      (missile_target w i == t) = false := by
    intro hv
    rw [beq_eq_false_iff_ne]
    intro heq
    rw [← heq, hv] at ht
    exact absurd ht (by simp)
  unfold missile_events at hev
  by_cases hm : ecs_ent_has_mask w (ecs_get_ent w i) MISSILE_SYSTEM_MASK = true
  · by_cases hv : ecs_ent_is_valid w (missile_target w i) = true
    · simp only [hm, hv, if_true, List.mem_append, List.mem_cons, List.mem_singleton,
        List.not_mem_nil, or_false] at hev
      rcases hev with (rfl | rfl) | (rfl | rfl | rfl) | (rfl | rfl) | hev
      all_goals first
        | rfl
        | (simp only [Event.uses]; first | exact hne1 hm | exact hne2 hv)
        | skip
      split at hev
      · simp only [List.mem_append, List.mem_cons, List.mem_singleton,
          List.not_mem_nil, or_false] at hev
        rcases hev with (rfl | rfl | rfl | rfl | rfl | rfl | rfl | rfl | rfl) | hev
        all_goals first
          | rfl
          | (simp only [Event.uses]; first | exact hne1 hm | exact hne2 hv)
          | skip
        split at hev
        · simp only [List.mem_append, List.mem_cons, List.mem_singleton,
            List.not_mem_nil, or_false] at hev
          rcases hev with (rfl | rfl | rfl | rfl) | hev
          all_goals first
            | rfl
            | skip
          split at hev
          · simp only [List.mem_cons, List.mem_singleton, List.not_mem_nil, or_false] at hev
            rcases hev with rfl | rfl | rfl | rfl | rfl | rfl | rfl
            all_goals first
              | rfl
              | (simp only [Event.uses]; first | exact hne1 hm | exact hne2 hv)
          · simp at hev
        · simp at hev
      · simp only [List.mem_singleton] at hev
        subst hev
        rfl
    · simp only [hm, hv, if_true, List.mem_append, List.mem_cons, List.mem_singleton,
        List.not_mem_nil, or_false, List.append_nil, Bool.false_eq_true, if_false] at hev
      rcases hev with (rfl | rfl) | (rfl | rfl | rfl)
      all_goals first
        | rfl
        | (simp only [Event.uses]; exact hne1 hm)
  · simp only [hm, Bool.false_eq_true, if_false, List.append_nil, List.mem_cons,
      List.mem_singleton, List.not_mem_nil, or_false] at hev
    rcases hev with rfl | rfl <;> rfl

theorem missile_body_keeps_unused (sqrtf : F → F) (t : EcsEnt) (s : Exec F) (i : Nat)
    (h : ecs_ent_is_valid s.ecs t = false ∧ ∀ ev ∈ s.trace, Event.uses t ev = false) :
    ecs_ent_is_valid (missile_system_body sqrtf s i).ecs t = false
    ∧ ∀ ev ∈ (missile_system_body sqrtf s i).trace, Event.uses t ev = false := by
  rw [missile_body_eq]
  refine ⟨?_, ?_⟩
  · by_contra hc
    simp only [Bool.not_eq_false] at hc
    have := missile_step_valid_mono sqrtf s.ecs i t hc
    rw [h.1] at this
    exact absurd this (by simp)
  · intro ev hev
    rcases List.mem_append.mp hev with hev | hev
    · exact h.2 ev hev
    · exact missile_events_uses_valid sqrtf s.ecs i t h.1 ev hev

/-- The loop body changes a slot only by killing it. -/
theorem missile_step_slots (sqrtf : F → F) (w : Ecs F) (i j : Nat) :
    (missile_step sqrtf w i).max_entities = w.max_entities
    ∧ ((missile_step sqrtf w i).slots j = w.slots j
        ∨ ((missile_step sqrtf w i).slots j).live = false) := by
  unfold missile_step
  split
  · split
    · refine ⟨?_, ?_⟩
      · rw [(destroy_frame _ _).1, (destroy_frame _ _).1]; rfl
      · rcases destroy_slots_cases
          (ecs_ent_destroy (missile_aimed sqrtf w i) (ecs_get_ent w i)) (missile_target w i) j
          with h | h
        · rcases destroy_slots_cases (missile_aimed sqrtf w i) (ecs_get_ent w i) j with h2 | h2
          · left; rw [h, h2]; rfl
          · right; rw [h, h2]
        · right; exact h
    · exact ⟨rfl, Or.inl rfl⟩
  · exact ⟨rfl, Or.inl rfl⟩

theorem missile_reach_slots (sqrtf : F → F) (w : Ecs F) (k : Nat) :
    (missile_reach sqrtf w k).ecs.max_entities = w.max_entities
    ∧ ∀ j, (missile_reach sqrtf w k).ecs.slots j = w.slots j
        ∨ ((missile_reach sqrtf w k).ecs.slots j).live = false := by
  apply for_each_slot_preserves (missile_system_body sqrtf)
    (fun x => x.ecs.max_entities = w.max_entities
      ∧ ∀ j, x.ecs.slots j = w.slots j ∨ (x.ecs.slots j).live = false)
  · intro s i hs
    rw [missile_body_eq]
    refine ⟨(missile_step_slots sqrtf s.ecs i 0).1.trans hs.1, ?_⟩
    intro j
    rcases (missile_step_slots sqrtf s.ecs i j).2 with h | h
    · rcases hs.2 j with h2 | h2
      · left; exact h.trans h2
      · right
        show ((missile_step sqrtf s.ecs i).slots j).live = false
        rw [h]; exact h2
    · right; exact h
  · exact ⟨rfl, fun _ => Or.inl rfl⟩

theorem missile_events_examined (sqrtf : F → F) (w : Ecs F) (j : Nat) :
    (missile_events sqrtf w j).filterMap Event.examined = [j] := by
  unfold missile_events
  split_ifs <;> simp [Event.examined]

theorem missile_events_processing (sqrtf : F → F) (w : Ecs F) (i j : Nat) :
    (missile_events sqrtf w j).countP (Event.starts_processing i)
      = if j = i ∧ ecs_ent_has_mask w (ecs_get_ent w j) MISSILE_SYSTEM_MASK = true then 1 else 0 := by
  unfold missile_events
  by_cases hji : j = i
  · subst hji
    split_ifs <;> simp_all [Event.starts_processing, List.countP_cons]
  · split_ifs <;> simp_all [Event.starts_processing, List.countP_cons]

/-- The trace of a scan that has run `k` iterations without a fault: the slots
0 to `k - 1` were examined once each in ascending order, and the processing of
slot `i` was opened once when the entity passed the mask as its slot was reached,
and not at all otherwise. -/
theorem missile_reach_trace (sqrtf : F → F) (w : Ecs F) (k : Nat) (hk : k ≤ ecs_for_count w)
    (hf : (missile_reach sqrtf w k).fault = false) :
    (missile_reach sqrtf w k).trace.filterMap Event.examined = List.range k
    ∧ ∀ i, (missile_reach sqrtf w k).trace.countP (Event.starts_processing i)
        = if i < k ∧ ecs_ent_has_mask (missile_reach sqrtf w i).ecs
              (ecs_get_ent (missile_reach sqrtf w i).ecs i) MISSILE_SYSTEM_MASK = true
          then 1 else 0 := by
  induction k with
  | zero =>
    refine ⟨rfl, ?_⟩
    intro i
    simp [missile_reach, for_each_slot, Exec.start]
  | succ k ih =>
    have hfk := missile_reach_no_fault sqrtf w k (k + 1) (by omega) hf
    obtain ⟨h1, h2⟩ := ih (by omega) hfk
    rw [missile_reach_succ sqrtf w k hfk (by omega), missile_body_eq]
    refine ⟨?_, ?_⟩
    · simp only [List.filterMap_append, h1, missile_events_examined, List.range_succ]
    · intro i
      simp only [List.countP_append, h2 i, missile_events_processing]
      by_cases hik : k = i
      · subst hik
        simp
      · by_cases hlt : i < k
        · simp [hik, hlt, Nat.lt_succ_of_lt hlt]
        · have : ¬ i < k + 1 := by omega
          simp [hik, hlt, this]

theorem missile_reach_step (sqrtf : F → F) (w : Ecs F) (k : Nat) (hk : k < ecs_for_count w)
    (hf : (missile_reach sqrtf w k).fault = false) :
    (missile_reach sqrtf w (k + 1)).ecs = missile_step sqrtf (missile_reach sqrtf w k).ecs k
    ∧ (missile_reach sqrtf w (k + 1)).fault = missile_faults (missile_reach sqrtf w k).ecs k
    ∧ (missile_reach sqrtf w (k + 1)).trace
        = (missile_reach sqrtf w k).trace ++ missile_events sqrtf (missile_reach sqrtf w k).ecs k := by
  rw [missile_reach_succ sqrtf w k hf hk, missile_body_eq]
  simp [hf]

theorem missile_step_of_fires (sqrtf : F → F) (w : Ecs F) (i : Nat)
    (h : missile_fires sqrtf w i = true) :
    missile_step sqrtf w i
      = ecs_ent_destroy (ecs_ent_destroy (missile_aimed sqrtf w i) (ecs_get_ent w i))
          (missile_target w i) := by
  simp only [missile_fires, Bool.and_eq_true, decide_eq_true_eq] at h
  simp [missile_step, h.1.1, h.1.2, h.2]

theorem missile_step_of_far (sqrtf : F → F) (w : Ecs F) (i : Nat)
    (ha : missile_aims w i = true)
    (hv : ecs_ent_has_component w (ecs_get_ent w i) COMPONENT_VELOCITY = true)
    (hd : ¬ missile_distance sqrtf w i < 0.2) :
    missile_step sqrtf w i = missile_aimed sqrtf w i := by
  simp [missile_step, ha, hv, hd]

theorem missile_step_of_idle (sqrtf : F → F) (w : Ecs F) (i : Nat)
    (h : (missile_aims w i && ecs_ent_has_component w (ecs_get_ent w i) COMPONENT_VELOCITY)
      = false) :
    missile_step sqrtf w i = w := by
  simp [missile_step, h]

end MissileBody

/-! ## The claims about the missile system -/

section MissileClaims

variable {F : Type} [Add F] [Sub F] [Mul F] [Div F] [OfScientific F] [LT F]
  [DecidableRel (fun a b : F => a < b)]

/-- C1: `missile_system` validates a stored target handle before using it.  When
the entity in slot `i` passes `MISSILE_SYSTEM_MASK` and the handle stored in its
target component is not valid, processing the entity leaves the world (and the
fault flag) as it was and consists of exactly the five events up to the
`ecs_ent_is_valid` call, none of which is an `ecs_ent_has_component`,
`ecs_ent_get_component` or `ecs_ent_destroy` call on the stored handle; and a whole
call of `missile_system` started in that world makes no such call on that handle,
which is still invalid when the call ends. -/
theorem C1_missile_system_validates_target (sqrtf : F → F) (s : Exec F) (i : Nat)
    (hm : ecs_ent_has_mask s.ecs (ecs_get_ent s.ecs i) MISSILE_SYSTEM_MASK = true)
    (hv : ecs_ent_is_valid s.ecs (missile_target s.ecs i) = false) :
    (missile_system_body sqrtf s i).ecs = s.ecs
    ∧ (missile_system_body sqrtf s i).fault = s.fault
    ∧ (missile_system_body sqrtf s i).trace = s.trace ++
        [Event.get_ent i,
         Event.has_mask (ecs_get_ent s.ecs i) MISSILE_SYSTEM_MASK,
         Event.get_component (ecs_get_ent s.ecs i) COMPONENT_TARGET,
         Event.load COMPONENT_TARGET (s.ecs.cell i COMPONENT_TARGET),
         Event.is_valid (missile_target s.ecs i)]
    ∧ ecs_get_ent s.ecs i ≠ missile_target s.ecs i
    ∧ (∀ ev ∈ (missile_system sqrtf (Exec.start s.ecs)).trace,
        Event.uses (missile_target s.ecs i) ev = false)
    ∧ ecs_ent_is_valid (missile_system sqrtf (Exec.start s.ecs)).ecs (missile_target s.ecs i)
        = false := by
  have hcall := for_each_slot_preserves (missile_system_body sqrtf)
    (fun x => ecs_ent_is_valid x.ecs (missile_target s.ecs i) = false
      ∧ ∀ ev ∈ x.trace, Event.uses (missile_target s.ecs i) ev = false)
    (fun x j hx => missile_body_keeps_unused sqrtf _ x j hx)
    (ecs_for_count s.ecs) 0 (Exec.start s.ecs) ⟨hv, by simp [Exec.start]⟩
  refine ⟨?_, ?_, ?_, ?_, hcall.2, hcall.1⟩
  · rw [missile_body_eq]
    simp [missile_step, missile_aims, hv]
  · rw [missile_body_eq]
    simp [missile_faults, missile_aims, hv]
  · rw [missile_body_eq]
    simp [missile_events, hm, hv]
  · intro heq
    rw [← heq, has_mask_valid _ _ _ hm] at hv
    exact absurd hv (by simp)

/-- C1 at the world where the missile in slot 0 stores the handle of a destroyed
target: processing the missile leaves the world as it is and the call makes no
`ecs_ent_has_component`, `ecs_ent_get_component` or `ecs_ent_destroy` call on the
stale handle. -/
theorem C1_missile_system_validates_target_witness :
    ecs_ent_has_mask (Exec.start stale_target_world).ecs
        (ecs_get_ent (Exec.start stale_target_world).ecs 0) MISSILE_SYSTEM_MASK = true
    ∧ ecs_ent_is_valid (Exec.start stale_target_world).ecs
        (missile_target (Exec.start stale_target_world).ecs 0) = false
    ∧ (missile_system_body Real.sqrt (Exec.start stale_target_world) 0).ecs
        = (Exec.start stale_target_world).ecs
    ∧ (∀ ev ∈ (missile_system Real.sqrt (Exec.start (Exec.start stale_target_world).ecs)).trace,
        Event.uses (missile_target (Exec.start stale_target_world).ecs 0) ev = false) :=
  ⟨by decide, by decide,
   (C1_missile_system_validates_target Real.sqrt (Exec.start stale_target_world) 0
      (by decide) (by decide)).1,
   (C1_missile_system_validates_target Real.sqrt (Exec.start stale_target_world) 0
      (by decide) (by decide)).2.2.2.2.1⟩

/-- What holds of the scan of `missile_system` whatever it destroys:
`ecs_ent_destroy` never changes the loop bound, which stays the same through the
whole call, and the scan needs exactly that many iterations (more fuel changes
nothing).  In a call that ends without a null dereference: the slots 0 to
`ecs_for_count - 1` are examined once each in ascending order; the processing of
slot `i` is opened exactly once when the entity passes `MISSILE_SYSTEM_MASK` as its
slot is reached and not at all otherwise; an entity that earlier iterations did
not destroy passes the mask when reached exactly when it passed it at the start
of the call; and an entity whose handle is no longer valid when its slot is
reached is not processed. -/
theorem missile_scan_undisturbed (sqrtf : F → F) (w : Ecs F)
    (hnf : (missile_system sqrtf (Exec.start w)).fault = false) :
    (∀ (v : Ecs F) (e : EcsEnt), ecs_for_count (ecs_ent_destroy v e) = ecs_for_count v)
    ∧ (∀ k, ecs_for_count (missile_reach sqrtf w k).ecs = ecs_for_count w)
    ∧ (∀ k, for_each_slot (missile_system_body sqrtf) (ecs_for_count w + k) 0 (Exec.start w)
        = missile_system sqrtf (Exec.start w))
    ∧ (missile_system sqrtf (Exec.start w)).trace.filterMap Event.examined
        = List.range (ecs_for_count w)
    ∧ (∀ i, i < ecs_for_count w →
        (missile_system sqrtf (Exec.start w)).trace.countP (Event.starts_processing i)
          = if ecs_ent_has_mask (missile_reach sqrtf w i).ecs
                (ecs_get_ent (missile_reach sqrtf w i).ecs i) MISSILE_SYSTEM_MASK = true
            then 1 else 0)
    ∧ (∀ i, i < ecs_for_count w →
        ecs_ent_is_valid (missile_reach sqrtf w i).ecs (ecs_get_ent w i) = true →
        ecs_ent_has_mask (missile_reach sqrtf w i).ecs
            (ecs_get_ent (missile_reach sqrtf w i).ecs i) MISSILE_SYSTEM_MASK
          = ecs_ent_has_mask w (ecs_get_ent w i) MISSILE_SYSTEM_MASK)
    ∧ (∀ i, i < ecs_for_count w →
        ecs_ent_is_valid (missile_reach sqrtf w i).ecs (ecs_get_ent w i) = false →
        (missile_system sqrtf (Exec.start w)).trace.countP (Event.starts_processing i) = 0) := by
  rw [missile_system_eq_reach] at hnf ⊢
  obtain ⟨hex, hpr⟩ := missile_reach_trace sqrtf w (ecs_for_count w) (Nat.le_refl _) hnf
  have hsame : ∀ i, ((missile_reach sqrtf w i).ecs.slots i).live = true →
      (missile_reach sqrtf w i).ecs.slots i = w.slots i := by
    intro i hl
    rcases (missile_reach_slots sqrtf w i).2 i with h | h
    · exact h
    · rw [h] at hl; exact absurd hl (by simp)
  have hmax : ∀ i, (missile_reach sqrtf w i).ecs.max_entities = w.max_entities :=
    fun i => (missile_reach_slots sqrtf w i).1
  refine ⟨destroy_count, missile_reach_count sqrtf w, ?_, hex, ?_, ?_, ?_⟩
  · intro k
    exact for_each_slot_fuel _ (missile_body_count sqrtf) _ 0 k _ (by simp [Exec.start])
  · intro i hi
    rw [hpr i]
    simp [hi]
  · intro i _ hv
    have hl : ((missile_reach sqrtf w i).ecs.slots i).live = true := by
      simp only [ecs_ent_is_valid, Bool.and_eq_true, ecs_get_ent_index] at hv
      exact hv.2
    simp only [ecs_ent_has_mask, ecs_ent_is_valid, ecs_get_ent_index, ecs_get_ent_generation,
      hsame i hl, hmax i]
  · intro i hi hv
    rw [hpr i]
    have : ecs_ent_has_mask (missile_reach sqrtf w i).ecs
        (ecs_get_ent (missile_reach sqrtf w i).ecs i) MISSILE_SYSTEM_MASK ≠ true := by
      intro hm
      have hval := has_mask_valid _ _ _ hm
      have hl : ((missile_reach sqrtf w i).ecs.slots i).live = true := by
        simp only [ecs_ent_is_valid, Bool.and_eq_true, ecs_get_ent_index] at hval
        exact hval.2
      have heq : ecs_get_ent (missile_reach sqrtf w i).ecs i = ecs_get_ent w i := by
        simp only [ecs_get_ent, hsame i hl]
      rw [heq, hv] at hval
      exact absurd hval (by simp)
    simp [this]

theorem duel_world_fires : missile_fires Real.sqrt duel_world 0 = true := by
  simp only [missile_fires, Bool.and_eq_true, decide_eq_true_eq]
  refine ⟨⟨by decide, by decide⟩, ?_⟩
  have hx : missile_tx duel_world 0 = 0.1 - 0 := rfl
  have hy : missile_ty duel_world 0 = 0 - 0 := rfl
  rw [missile_distance, hx, hy]
  have : ((0.1 : ℝ) - 0) * (0.1 - 0) + (0 - 0) * (0 - 0) = 0.1 ^ 2 := by norm_num
  rw [this, Real.sqrt_sq (by norm_num)]
  norm_num

theorem duel_world_reach_one :
    (missile_reach Real.sqrt duel_world 1).ecs
      = ecs_ent_destroy (ecs_ent_destroy (missile_aimed Real.sqrt duel_world 0)
          (ecs_get_ent duel_world 0)) (missile_target duel_world 0)
    ∧ (missile_reach Real.sqrt duel_world 1).fault = false := by
  obtain ⟨h1, h2, _⟩ := missile_reach_step Real.sqrt duel_world 0 (by decide) rfl
  refine ⟨?_, ?_⟩
  · rw [h1]
    exact missile_step_of_fires Real.sqrt duel_world 0 duel_world_fires
  · rw [h2]
    decide

theorem duel_world_no_fault :
    (missile_system Real.sqrt (Exec.start duel_world)).fault = false := by
  obtain ⟨_, h2, _⟩ := missile_reach_step Real.sqrt duel_world 1 (by decide)
    duel_world_reach_one.2
  rw [missile_system_eq_reach]
  show (missile_reach Real.sqrt duel_world (1 + 1)).fault = false
  rw [h2, duel_world_reach_one.1]
  decide

/-- The scan at the world of two missiles aimed at each other: the call ends
without a fault, both slots are examined once in order, and the missile in slot 1,
which the iteration for slot 0 destroyed, is not processed. -/
theorem missile_scan_undisturbed_at_duel :
    (missile_system Real.sqrt (Exec.start duel_world)).fault = false
    ∧ (missile_system Real.sqrt (Exec.start duel_world)).trace.filterMap Event.examined
        = List.range (ecs_for_count duel_world)
    ∧ ecs_ent_has_mask duel_world (ecs_get_ent duel_world 1) MISSILE_SYSTEM_MASK = true
    ∧ (missile_system Real.sqrt (Exec.start duel_world)).trace.countP
        (Event.starts_processing 1) = 0 :=
  ⟨duel_world_no_fault,
   (missile_scan_undisturbed Real.sqrt duel_world duel_world_no_fault).2.2.2.1,
   by decide,
   (missile_scan_undisturbed Real.sqrt duel_world duel_world_no_fault).2.2.2.2.2.2 1
     (by decide) (by rw [duel_world_reach_one.1]; decide)⟩

end MissileClaims

/-! ## Where the code departs from the claims -/

section Departures

theorem point_blank_distance : missile_distance Real.sqrt point_blank_world 0 = 0.1 := by
  have hx : missile_tx point_blank_world 0 = 0.1 - 0 := rfl
  have hy : missile_ty point_blank_world 0 = 0 - 0 := rfl
  rw [missile_distance, hx, hy]
  have : ((0.1 : ℝ) - 0) * (0.1 - 0) + (0 - 0) * (0 - 0) = 0.1 ^ 2 := by norm_num
  rw [this, Real.sqrt_sq (by norm_num)]

theorem point_blank_fires : missile_fires Real.sqrt point_blank_world 0 = true := by
  simp only [missile_fires, Bool.and_eq_true, decide_eq_true_eq]
  refine ⟨⟨by decide, by decide⟩, ?_⟩
  rw [point_blank_distance]
  norm_num

/-- C6 at its failing input: the missile in slot 0 passes `MISSILE_SYSTEM_MASK`,
which does not list `COMPONENT_VELOCITY`; `missile_system` fetches the missile's
velocity all the same (line 110), the fetch returns a null pointer, and the store
through it at line 117 stops the program. -/
theorem C6_missile_system_fetches_outside_mask :
    ecs_ent_has_mask no_velocity_world (ecs_get_ent no_velocity_world 0) MISSILE_SYSTEM_MASK = true
    ∧ COMPONENT_VELOCITY ∉ MISSILE_SYSTEM_MASK
    ∧ ecs_ent_get_component no_velocity_world (ecs_get_ent no_velocity_world 0)
        COMPONENT_VELOCITY = none
    ∧ Event.get_component (ecs_get_ent no_velocity_world 0) COMPONENT_VELOCITY
        ∈ (missile_system Real.sqrt (Exec.start no_velocity_world)).trace
    ∧ (missile_system Real.sqrt (Exec.start no_velocity_world)).fault = true := by
  obtain ⟨_, h2, h3⟩ := missile_reach_step Real.sqrt no_velocity_world 0 (by decide) rfl
  have hf : (missile_reach Real.sqrt no_velocity_world 1).fault = true := by
    rw [h2]; decide
  have hsys : missile_system Real.sqrt (Exec.start no_velocity_world)
      = missile_reach Real.sqrt no_velocity_world 1 :=
    missile_reach_fault Real.sqrt no_velocity_world 1 1 hf
  refine ⟨by decide, by decide, by decide, ?_, ?_⟩
  · rw [hsys, h3]
    have hm : ecs_ent_has_mask no_velocity_world (ecs_get_ent no_velocity_world 0)
        MISSILE_SYSTEM_MASK = true := by decide
    have hv : ecs_ent_is_valid no_velocity_world (missile_target no_velocity_world 0) = true := by
      decide
    have ht : ecs_ent_has_component no_velocity_world (missile_target no_velocity_world 0)
        COMPONENT_TRANSFORM = true := by decide
    show _ ∈ _ ++ missile_events Real.sqrt no_velocity_world 0
    simp [missile_events, hm, hv, ht]
  · rw [hsys, hf]

/-- The events of the loop body for a missile that fires end with the destroy of
the missile, a load through the pointer to its target component, and the destroy
of the target. -/
theorem missile_events_of_fires {F : Type} [Add F] [Sub F] [Mul F] [Div F] [OfScientific F]
    [LT F] [DecidableRel (fun a b : F => a < b)] (sqrtf : F → F) (w : Ecs F) (i : Nat)
    (h : missile_fires sqrtf w i = true) :
    ∃ pre, missile_events sqrtf w i = pre ++
      [Event.destroy (ecs_get_ent w i),
       Event.load COMPONENT_TARGET (w.cell i COMPONENT_TARGET),
       Event.destroy (missile_target w i)] := by
  simp only [missile_fires, missile_aims, Bool.and_eq_true, decide_eq_true_eq] at h
  obtain ⟨⟨⟨⟨hm, hv⟩, ht⟩, hvel⟩, hd⟩ := h
  refine ⟨(missile_events sqrtf w i).dropLast.dropLast.dropLast, ?_⟩
  simp [missile_events, hm, hv, ht, hvel, hd]

/-- C8 at its failing input, the missile at (0,0) with its target at (0.1,0): the
pointer `missile` fetched at line 102 points at cell `c` of the target pool, which
the missile owns; the body ends with `ecs_ent_destroy(ecs, e)`, a load through
`missile` and `ecs_ent_destroy` of the loaded handle; in the world in which that
load happens (after line 126) the missile owns no target component any more and
cell `c` is on the free list of the target pool. -/
theorem C8_target_read_after_destroy :
    ecs_ent_get_component point_blank_world (ecs_get_ent point_blank_world 0) COMPONENT_TARGET
      = some (point_blank_world.cell 0 COMPONENT_TARGET)
    ∧ (∃ pre, (missile_system_body Real.sqrt (Exec.start point_blank_world) 0).trace = pre ++
        [Event.destroy (ecs_get_ent point_blank_world 0),
         Event.load COMPONENT_TARGET (point_blank_world.cell 0 COMPONENT_TARGET),
         Event.destroy (missile_target point_blank_world 0)])
    ∧ (missile_system_body Real.sqrt (Exec.start point_blank_world) 0).ecs
        = ecs_ent_destroy
            (ecs_ent_destroy (missile_aimed Real.sqrt point_blank_world 0)
              (ecs_get_ent point_blank_world 0))
            (missile_target point_blank_world 0)
    ∧ ecs_ent_get_component
        (ecs_ent_destroy (missile_aimed Real.sqrt point_blank_world 0)
          (ecs_get_ent point_blank_world 0))
        (ecs_get_ent point_blank_world 0) COMPONENT_TARGET = none
    ∧ point_blank_world.cell 0 COMPONENT_TARGET
        ∈ ((ecs_ent_destroy (missile_aimed Real.sqrt point_blank_world 0)
            (ecs_get_ent point_blank_world 0)).pools COMPONENT_TARGET).free_list := by
  refine ⟨by decide, ?_, ?_, by decide, by decide⟩
  · obtain ⟨pre, hpre⟩ := missile_events_of_fires Real.sqrt point_blank_world 0 point_blank_fires
    refine ⟨pre, ?_⟩
    rw [missile_body_eq]
    show [] ++ missile_events Real.sqrt point_blank_world 0 = _
    rw [List.nil_append, hpre]
  · rw [missile_body_eq]
    exact missile_step_of_fires Real.sqrt point_blank_world 0 point_blank_fires

/-- C9, counterexample: the missile in slot 0 passes `MISSILE_SYSTEM_MASK` and its
stored target handle is valid, but the target has no transform; processing the
missile prints "missile target has no transform". -/
theorem C9_no_transform_branch_taken :
    ecs_ent_has_mask no_transform_target_world (ecs_get_ent no_transform_target_world 0)
      MISSILE_SYSTEM_MASK = true
    ∧ ecs_ent_is_valid no_transform_target_world (missile_target no_transform_target_world 0)
      = true
    ∧ no_transform_message
      ∈ (missile_system_body Real.sqrt (Exec.start no_transform_target_world) 0).trace := by
  refine ⟨by decide, by decide, ?_⟩
  rw [missile_body_eq]
  have hm : ecs_ent_has_mask no_transform_target_world (ecs_get_ent no_transform_target_world 0)
      MISSILE_SYSTEM_MASK = true := by decide
  have hv : ecs_ent_is_valid no_transform_target_world
      (missile_target no_transform_target_world 0) = true := by decide
  have ht : ecs_ent_has_component no_transform_target_world
      (missile_target no_transform_target_world 0) COMPONENT_TRANSFORM = false := by decide
  show _ ∈ [] ++ missile_events Real.sqrt no_transform_target_world 0
  simp [missile_events, hm, hv, ht, no_transform_message]

/-- C9, amended: the mask is tested on the missile, the transform on its target.
For an entity that passes `MISSILE_SYSTEM_MASK` and stores a valid target handle,
processing it prints "missile target has no transform" exactly when the target
has no transform component; in particular the branch is not taken when the target
has one. -/
theorem C9_no_transform_branch_iff {F : Type} [Add F] [Sub F] [Mul F] [Div F] [OfScientific F]
    [LT F] [DecidableRel (fun a b : F => a < b)] (sqrtf : F → F) (s : Exec F) (i : Nat)
    (hm : ecs_ent_has_mask s.ecs (ecs_get_ent s.ecs i) MISSILE_SYSTEM_MASK = true)
    (hv : ecs_ent_is_valid s.ecs (missile_target s.ecs i) = true) :
    (missile_system_body sqrtf s i).trace = s.trace ++ missile_events sqrtf s.ecs i
    ∧ (no_transform_message ∈ missile_events sqrtf s.ecs i
        ↔ ecs_ent_has_component s.ecs (missile_target s.ecs i) COMPONENT_TRANSFORM = false) := by
  refine ⟨by rw [missile_body_eq], ?_⟩
  by_cases ht : ecs_ent_has_component s.ecs (missile_target s.ecs i) COMPONENT_TRANSFORM = true
  · by_cases hvel : ecs_ent_has_component s.ecs (ecs_get_ent s.ecs i) COMPONENT_VELOCITY = true
    · by_cases hd : missile_distance sqrtf s.ecs i < 0.2
      · simp [missile_events, hm, hv, ht, hvel, hd, no_transform_message]
      · simp [missile_events, hm, hv, ht, hvel, hd, no_transform_message]
    · simp [missile_events, hm, hv, ht, hvel, no_transform_message]
  · simp [missile_events, hm, hv, ht, no_transform_message]

/-- C9, amended, at the world of two missiles aimed at each other: the target of
the missile in slot 0 has a transform and the message is not printed. -/
theorem C9_no_transform_branch_iff_witness :
    ecs_ent_has_mask (Exec.start duel_world).ecs (ecs_get_ent (Exec.start duel_world).ecs 0)
      MISSILE_SYSTEM_MASK = true
    ∧ ecs_ent_is_valid (Exec.start duel_world).ecs (missile_target (Exec.start duel_world).ecs 0)
      = true
    ∧ ¬ no_transform_message ∈ missile_events Real.sqrt (Exec.start duel_world).ecs 0 :=
  ⟨by decide, by decide, fun h =>
    absurd ((C9_no_transform_branch_iff Real.sqrt (Exec.start duel_world) 0
      (by decide) (by decide)).2.mp h) (by decide)⟩

end Departures

/-! ## More on where the code departs from the claims -/

theorem no_velocity_world_run :
    missile_system Real.sqrt (Exec.start no_velocity_world)
      = missile_reach Real.sqrt no_velocity_world 1
    ∧ (missile_reach Real.sqrt no_velocity_world 1).fault = true
    ∧ (missile_reach Real.sqrt no_velocity_world 1).trace
        = missile_events Real.sqrt no_velocity_world 0 := by
  obtain ⟨_, h2, h3⟩ := missile_reach_step Real.sqrt no_velocity_world 0 (by decide) rfl
  have hf : (missile_reach Real.sqrt no_velocity_world 1).fault = true := by
    rw [h2]; decide
  refine ⟨missile_reach_fault Real.sqrt no_velocity_world 1 1 hf, hf, ?_⟩
  rw [h3]
  rfl

/-- C5 at its failing input: the world has two reserved slots; the missile in slot
0 has no velocity component, the store of line 117 goes through a null pointer and
stops the program; slot 0 is the only slot the scan has examined, slot 1 is never
reached. -/
theorem C5_scan_stops_at_null_store :
    ecs_for_count no_velocity_world = 2
    ∧ (missile_system Real.sqrt (Exec.start no_velocity_world)).fault = true
    ∧ (missile_system Real.sqrt (Exec.start no_velocity_world)).trace.filterMap Event.examined
        = [0] := by
  obtain ⟨h1, h2, h3⟩ := no_velocity_world_run
  refine ⟨by decide, ?_, ?_⟩
  · rw [h1]; exact h2
  · rw [h1, h3]
    exact missile_events_examined Real.sqrt no_velocity_world 0

section Quiet

variable {F : Type} [Add F] [Sub F] [Mul F] [Div F] [OfScientific F] [LT F]
  [DecidableRel (fun a b : F => a < b)]

end Quiet

theorem main_init_eq : main_init (F := Real) = some main_start := by rfl

theorem main_start_fault : main_start.fault = false := by rfl

theorem main_start_chase :
    main_start.ecs = chase_world { x := 0.0, y := 0.0 } { x := 4.0, y := 4.0 }
      { dx := 0.0, dy := 0.0 } := by
  have h0 : main_start.ecs.transforms 0 = { x := 0.0, y := 0.0 } := rfl
  have h1 : main_start.ecs.transforms 1 = { x := 4.0, y := 4.0 } := rfl
  have h2 : main_start.ecs.velocities 1 = { dx := 0.0, dy := 0.0 } := rfl
  unfold chase_world
  rw [← h0, ← h1, ← h2]
  simp only [Function.update_eq_self]

section TwoSlots

variable {F : Type}

/-- A scan over two reserved slots whose body acts on the world by `step` and
faults by `flt`: when neither iteration faults, the world is stepped twice. -/
theorem for_each_slot_two (body : Exec F → Nat → Exec F) (step : Ecs F → Nat → Ecs F)
    (flt : Ecs F → Nat → Bool)
    (hb : ∀ s i, (body s i).ecs = step s.ecs i ∧ (body s i).fault = (s.fault || flt s.ecs i))
    (hcount : ∀ w i, ecs_for_count (step w i) = ecs_for_count w)
    (s : Exec F) (hf : s.fault = false) (hc : ecs_for_count s.ecs = 2)
    (h0 : flt s.ecs 0 = false) (h1 : flt (step s.ecs 0) 1 = false) :
    (for_each_slot body (ecs_for_count s.ecs) 0 s).ecs = step (step s.ecs 0) 1
    ∧ (for_each_slot body (ecs_for_count s.ecs) 0 s).fault = false := by
  have hf1 : (body s 0).fault = false := by rw [(hb s 0).2, hf, h0]; rfl
  have hc1 : ecs_for_count (body s 0).ecs = 2 := by rw [(hb s 0).1, hcount, hc]
  have hf2 : (body (body s 0) 1).fault = false := by
    rw [(hb _ 1).2, hf1, (hb s 0).1, h1]; rfl
  have hc2 : ecs_for_count (body (body s 0) 1).ecs = 2 := by rw [(hb _ 1).1, hcount, hc1]
  have hrun : for_each_slot body (ecs_for_count s.ecs) 0 s = body (body s 0) 1 := by
    rw [hc]
    rw [for_each_slot_step body 1 0 s hf (by omega),
      for_each_slot_step body 0 1 (body s 0) hf1 (by omega)]
    rfl
  rw [hrun]
  exact ⟨by rw [(hb _ 1).1, (hb s 0).1], hf2⟩

theorem sprite_body_spec (s : Exec F) (i : Nat) :
    (sprite_render_system_body s i).ecs = s.ecs
    ∧ (sprite_render_system_body s i).fault = s.fault := by
  by_cases h : ecs_ent_has_mask s.ecs (ecs_get_ent s.ecs i) SPRITE_RENDER_SYSTEM_MASK = true
  · have h2 := (has_mask_pair _ _ _ _).mp h
    simp [sprite_render_system_body, Exec.emit, Exec.null_deref, h, ecs_ent_get_component,
      h2.1, h2.2]
  · simp [sprite_render_system_body, Exec.emit, h]

/-- The render system changes neither the world nor the fault flag. -/
theorem sprite_render_system_spec (s : Exec F) :
    (sprite_render_system s).ecs = s.ecs ∧ (sprite_render_system s).fault = s.fault := by
  unfold sprite_render_system
  exact for_each_slot_preserves sprite_render_system_body
    (fun x => x.ecs = s.ecs ∧ x.fault = s.fault)
    (fun x i hx => ⟨(sprite_body_spec x i).1.trans hx.1, (sprite_body_spec x i).2.trans hx.2⟩)
    _ 0 s ⟨rfl, rfl⟩

end TwoSlots

theorem movement_body_step {F : Type} [Add F] (s : Exec F) (i : Nat) :
    (movement_system_body s i).ecs = movement_step s.ecs i
    ∧ (movement_system_body s i).fault = (s.fault || false) := by
  refine ⟨(movement_body_spec s i).2, ?_⟩
  rw [(movement_body_spec s i).1, Bool.or_false]

theorem movement_step_count {F : Type} [Add F] (w : Ecs F) (i : Nat) :
    ecs_for_count (movement_step w i) = ecs_for_count w := by
  unfold movement_step
  split <;> rfl

theorem chase_world_count (p q : CTransform Real) (v : CVelocity Real) :
    ecs_for_count (chase_world p q v) = 2 := rfl

theorem chase_world_systems (p q : CTransform Real) (v : CVelocity Real) :
    (chase_world p q v).systems
      = [(SystemId.movement_system, ECS_SYSTEM_UPDATE),
         (SystemId.missile_system, ECS_SYSTEM_UPDATE),
         (SystemId.sprite_render_system, ECS_SYSTEM_RENDER)] := rfl

theorem chase_world_move_ship (p q : CTransform Real) (v : CVelocity Real) :
    movement_step (chase_world p q v) 0
      = chase_world { x := p.x + 0.1, y := p.y + 0.0 } q v := by
  have hm : ecs_ent_has_mask (chase_world p q v) (ecs_get_ent (chase_world p q v) 0)
      MOVEMENT_SYSTEM_MASK = true := rfl
  unfold movement_step
  rw [if_pos hm]
  have hc : (chase_world p q v).cell 0 COMPONENT_TRANSFORM = 0 := rfl
  have hcv : (chase_world p q v).velocities ((chase_world p q v).cell 0 COMPONENT_VELOCITY)
      = { dx := 0.1, dy := 0.0 } := rfl
  have ht : (chase_world p q v).transforms 0 = p := rfl
  rw [hc, hcv, ht]
  unfold chase_world
  congr 1
  funext c
  by_cases h0 : c = 0
  · subst h0; simp
  · by_cases h1 : c = 1
    · subst h1; simp
    · simp [Function.update_noteq h0, Function.update_noteq h1]

theorem chase_world_move_missile (p q : CTransform Real) (v : CVelocity Real) :
    movement_step (chase_world p q v) 1
      = chase_world p { x := q.x + v.dx, y := q.y + v.dy } v := by
  have hm : ecs_ent_has_mask (chase_world p q v) (ecs_get_ent (chase_world p q v) 1)
      MOVEMENT_SYSTEM_MASK = true := rfl
  unfold movement_step
  rw [if_pos hm]
  have hc : (chase_world p q v).cell 1 COMPONENT_TRANSFORM = 1 := rfl
  have hcv : (chase_world p q v).velocities ((chase_world p q v).cell 1 COMPONENT_VELOCITY)
      = v := rfl
  have ht : (chase_world p q v).transforms 1 = q := rfl
  rw [hc, hcv, ht]
  unfold chase_world
  congr 1
  funext c
  by_cases h1 : c = 1
  · subst h1; simp
  · simp [Function.update_noteq h1]

theorem missile_body_step {F : Type} [Add F] [Sub F] [Mul F] [Div F] [OfScientific F] [LT F]
    [DecidableRel (fun a b : F => a < b)] (sqrtf : F → F) (s : Exec F) (i : Nat) :
    (missile_system_body sqrtf s i).ecs = missile_step sqrtf s.ecs i
    ∧ (missile_system_body sqrtf s i).fault = (s.fault || missile_faults s.ecs i) := by
  rw [missile_body_eq]
  exact ⟨rfl, rfl⟩

theorem missile_step_systems {F : Type} [Add F] [Sub F] [Mul F] [Div F] [OfScientific F] [LT F]
    [DecidableRel (fun a b : F => a < b)] (sqrtf : F → F) (w : Ecs F) (i : Nat) :
    (missile_step sqrtf w i).systems = w.systems := by
  unfold missile_step
  split
  · split
    · rw [(destroy_frame _ _).2.2.2.2.2.2.1, (destroy_frame _ _).2.2.2.2.2.2.1]
      rfl
    · rfl
  · rfl

theorem chase_world_ship_idle (p q : CTransform Real) (v : CVelocity Real) :
    missile_step Real.sqrt (chase_world p q v) 0 = chase_world p q v :=
  missile_step_of_idle Real.sqrt (chase_world p q v) 0 rfl

/-- One pass through the body of the main loop from a chase world: the ship moves
by its velocity (0.1, 0), the missile by its own, then the body of
`missile_system` runs for the missile in slot 1; nothing faults. -/
theorem main_tick_chase (s : Exec Real) (p q : CTransform Real) (v : CVelocity Real)
    (hs : s.ecs = chase_world p q v) (hf : s.fault = false) :
    (movement_system s).ecs
      = chase_world { x := p.x + 0.1, y := p.y + 0.0 } { x := q.x + v.dx, y := q.y + v.dy } v
    ∧ (main_tick Real.sqrt s).fault = false
    ∧ (main_tick Real.sqrt s).ecs
      = missile_step Real.sqrt
          (chase_world { x := p.x + 0.1, y := p.y + 0.0 } { x := q.x + v.dx, y := q.y + v.dy } v)
          1 := by
  have hmv := for_each_slot_two movement_system_body movement_step (fun _ _ => false)
    movement_body_step movement_step_count s hf (by rw [hs]; rfl) rfl rfl
  have hs1 : (movement_system s).ecs
      = chase_world { x := p.x + 0.1, y := p.y + 0.0 } { x := q.x + v.dx, y := q.y + v.dy } v := by
    show (for_each_slot movement_system_body (ecs_for_count s.ecs) 0 s).ecs = _
    rw [hmv.1, hs, chase_world_move_ship, chase_world_move_missile]
  have hf1 : (movement_system s).fault = false := hmv.2
  have hms := for_each_slot_two (missile_system_body Real.sqrt) (missile_step Real.sqrt)
    missile_faults (missile_body_step Real.sqrt) (missile_step_count Real.sqrt)
    (movement_system s) hf1 (by rw [hs1]; rfl) (by rw [hs1]; rfl)
    (by rw [hs1, chase_world_ship_idle]; rfl)
  have hs2 : (missile_system Real.sqrt (movement_system s)).ecs
      = missile_step Real.sqrt
          (chase_world { x := p.x + 0.1, y := p.y + 0.0 } { x := q.x + v.dx, y := q.y + v.dy } v)
          1 := by
    show (for_each_slot (missile_system_body Real.sqrt) (ecs_for_count (movement_system s).ecs) 0
      (movement_system s)).ecs = _
    rw [hms.1, hs1, chase_world_ship_idle]
  have hf2 : (missile_system Real.sqrt (movement_system s)).fault = false := hms.2
  have hsys : s.ecs.systems
      = [(SystemId.movement_system, ECS_SYSTEM_UPDATE),
         (SystemId.missile_system, ECS_SYSTEM_UPDATE),
         (SystemId.sprite_render_system, ECS_SYSTEM_RENDER)] := by
    rw [hs]; rfl
  have hupd : ecs_run_systems Real.sqrt s ECS_SYSTEM_UPDATE
      = missile_system Real.sqrt (movement_system s) := by
    simp [ecs_run_systems, hsys, run_system, hf, hf1]
  have hsys2 : (missile_system Real.sqrt (movement_system s)).ecs.systems
      = [(SystemId.movement_system, ECS_SYSTEM_UPDATE),
         (SystemId.missile_system, ECS_SYSTEM_UPDATE),
         (SystemId.sprite_render_system, ECS_SYSTEM_RENDER)] := by
    rw [hs2, missile_step_systems]; rfl
  have hren : ecs_run_systems Real.sqrt (missile_system Real.sqrt (movement_system s))
      ECS_SYSTEM_RENDER
      = sprite_render_system (missile_system Real.sqrt (movement_system s)) := by
    simp [ecs_run_systems, hsys2, run_system, hf2]
  refine ⟨hs1, ?_, ?_⟩
  · show (ecs_run_systems Real.sqrt (ecs_run_systems Real.sqrt s ECS_SYSTEM_UPDATE)
      ECS_SYSTEM_RENDER).fault = false
    rw [hupd, hren, (sprite_render_system_spec _).2]
    exact hf2
  · show (ecs_run_systems Real.sqrt (ecs_run_systems Real.sqrt s ECS_SYSTEM_UPDATE)
      ECS_SYSTEM_RENDER).ecs = _
    rw [hupd, hren, (sprite_render_system_spec _).1]
    exact hs2

theorem chase_world_countEnts (p q : CTransform Real) (v : CVelocity Real) :
    countEnts (chase_world p q v) = 2 := rfl

theorem chase_world_distance (p q : CTransform Real) (v : CVelocity Real) :
    missile_distance Real.sqrt (chase_world p q v) 1
      = Real.sqrt ((p.x - q.x) * (p.x - q.x) + (p.y - q.y) * (p.y - q.y)) := rfl

/-- The body of `missile_system` for the missile of a chase world that is not yet
close: the missile's velocity is pointed at the ship. -/
theorem chase_world_far (p q : CTransform Real) (v : CVelocity Real)
    (hd : ¬ missile_distance Real.sqrt (chase_world p q v) 1 < 0.2) :
    missile_step Real.sqrt (chase_world p q v) 1
      = chase_world p q
          { dx := ((p.x - q.x) / missile_distance Real.sqrt (chase_world p q v) 1) / 4.0
            dy := ((p.y - q.y) / missile_distance Real.sqrt (chase_world p q v) 1) / 4.0 } := by
  rw [missile_step_of_far Real.sqrt (chase_world p q v) 1 rfl rfl hd]
  have hc : (chase_world p q v).cell 1 COMPONENT_VELOCITY = 1 := rfl
  have hx : missile_tx (chase_world p q v) 1 = p.x - q.x := rfl
  have hy : missile_ty (chase_world p q v) 1 = p.y - q.y := rfl
  unfold missile_aimed
  rw [hc, hx, hy]
  unfold chase_world
  congr 1
  funext c
  by_cases h1 : c = 1
  · subst h1; simp
  · simp [Function.update_noteq h1]

/-- In a world with two reserved slots, both dead, `countEnts` finds nothing and no
handle to either slot is valid. -/
theorem two_dead_slots {F : Type} (D : Ecs F) (hcount : ecs_for_count D = 2)
    (h0 : (D.slots 0).live = false) (h1 : (D.slots 1).live = false) :
    countEnts D = 0
    ∧ (∀ g, ecs_ent_is_valid D { index := 0, generation := g } = false)
    ∧ (∀ g, ecs_ent_is_valid D { index := 1, generation := g } = false) := by
  have hg0 : ecs_ent_has_component D (ecs_get_ent D 0) COMPONENT_TRANSFORM = false :=
    (dead_slot_invalid D (ecs_get_ent D 0) h0).2 _
  have hg1 : ecs_ent_has_component D (ecs_get_ent D 1) COMPONENT_TRANSFORM = false :=
    (dead_slot_invalid D (ecs_get_ent D 1) h1).2 _
  refine ⟨?_, fun g => (dead_slot_invalid D { index := 0, generation := g } h0).1,
    fun g => (dead_slot_invalid D { index := 1, generation := g } h1).1⟩
  simp [countEnts, countEnts_loop, hcount, hg0, hg1]

/-- The body of `missile_system` for the missile of a chase world that is close:
both slots are dead afterwards and `countEnts` finds nothing. -/
theorem chase_world_boom (p q : CTransform Real) (v : CVelocity Real)
    (hd : missile_distance Real.sqrt (chase_world p q v) 1 < 0.2) :
    countEnts (missile_step Real.sqrt (chase_world p q v) 1) = 0
    ∧ ecs_ent_is_valid (missile_step Real.sqrt (chase_world p q v) 1)
        (ecs_get_ent main_start.ecs 0) = false
    ∧ ecs_ent_is_valid (missile_step Real.sqrt (chase_world p q v) 1)
        (ecs_get_ent main_start.ecs 1) = false
    ∧ live_count (missile_step Real.sqrt (chase_world p q v) 1) + 2
        = live_count main_start.ecs := by
  have hfire : missile_fires Real.sqrt (chase_world p q v) 1 = true := by
    have ha : missile_aims (chase_world p q v) 1 = true := rfl
    have hv : ecs_ent_has_component (chase_world p q v) (ecs_get_ent (chase_world p q v) 1)
        COMPONENT_VELOCITY = true := rfl
    simp [missile_fires, ha, hv, hd]
  rw [missile_step_of_fires Real.sqrt _ 1 hfire]
  have he : ecs_get_ent (chase_world p q v) 1 = { index := 1, generation := 0 } := rfl
  have ht : missile_target (chase_world p q v) 1 = { index := 0, generation := 0 } := rfl
  have hs0 : ecs_get_ent main_start.ecs 0 = { index := 0, generation := 0 } := rfl
  have hs1 : ecs_get_ent main_start.ecs 1 = { index := 1, generation := 0 } := rfl
  rw [he, ht, hs0, hs1]
  have hve : ecs_ent_is_valid (missile_aimed Real.sqrt (chase_world p q v) 1)
      { index := 1, generation := 0 } = true := rfl
  have hvt : ecs_ent_is_valid (missile_aimed Real.sqrt (chase_world p q v) 1)
      { index := 0, generation := 0 } = true := rfl
  have hmax1 := (destroy_frame (missile_aimed Real.sqrt (chase_world p q v) 1)
    { index := 1, generation := 0 }).1
  have hoff1 := (destroy_frame (missile_aimed Real.sqrt (chase_world p q v) 1)
    { index := 1, generation := 0 }).2.2.2.2.2.2.2
  have hvt1 : ecs_ent_is_valid
      (ecs_ent_destroy (missile_aimed Real.sqrt (chase_world p q v) 1)
        { index := 1, generation := 0 }) { index := 0, generation := 0 } = true := by
    rw [is_valid_congr (missile_aimed Real.sqrt (chase_world p q v) 1) _ _ hmax1
      (hoff1 0 (by decide))]
    exact hvt
  have hdead1 := (destroy_slot _ _ hve).1
  have hdead0 := (destroy_slot _ _ hvt1).1
  have hoff2 := (destroy_frame
    (ecs_ent_destroy (missile_aimed Real.sqrt (chase_world p q v) 1)
      { index := 1, generation := 0 }) { index := 0, generation := 0 }).2.2.2.2.2.2.2
  have hl1 : ((ecs_ent_destroy
      (ecs_ent_destroy (missile_aimed Real.sqrt (chase_world p q v) 1)
        { index := 1, generation := 0 }) { index := 0, generation := 0 }).slots 1).live
      = false := by
    rw [hoff2 1 (by decide)]
    exact hdead1
  have hcount : ecs_for_count (ecs_ent_destroy
      (ecs_ent_destroy (missile_aimed Real.sqrt (chase_world p q v) 1)
        { index := 1, generation := 0 }) { index := 0, generation := 0 }) = 2 := by
    rw [destroy_count, destroy_count]; rfl
  have hfin := two_dead_slots _ hcount hdead0 hl1
  refine ⟨hfin.1, hfin.2.1 0, hfin.2.2 0, ?_⟩
  · have h1 := destroy_live_count _ _ hve
    have h2 := destroy_live_count _ _ hvt1
    have h3 : live_count (missile_aimed Real.sqrt (chase_world p q v) 1)
        = live_count main_start.ecs := by
      simp only [live_count, missile_aimed, chase_world]
    omega

/-- The pursuit closes in: when the missile flies a quarter of a unit towards a
ship that is at distance `D` of at least 0.2 while the ship moves 0.1 along x, the
new distance is below 0.2, or at least 0.15 smaller than `D`. -/
theorem chase_closes (px py qx qy : ℝ)
    (hD : ¬ Real.sqrt ((px - qx) * (px - qx) + (py - qy) * (py - qy)) < 0.2) :
    Real.sqrt
        (((px + 0.1) - (qx + ((px - qx)
              / Real.sqrt ((px - qx) * (px - qx) + (py - qy) * (py - qy))) / 4.0))
          * ((px + 0.1) - (qx + ((px - qx)
              / Real.sqrt ((px - qx) * (px - qx) + (py - qy) * (py - qy))) / 4.0))
        + ((py + 0.0) - (qy + ((py - qy)
              / Real.sqrt ((px - qx) * (px - qx) + (py - qy) * (py - qy))) / 4.0))
          * ((py + 0.0) - (qy + ((py - qy)
              / Real.sqrt ((px - qx) * (px - qx) + (py - qy) * (py - qy))) / 4.0))) < 0.2
    ∨ Real.sqrt
        (((px + 0.1) - (qx + ((px - qx)
              / Real.sqrt ((px - qx) * (px - qx) + (py - qy) * (py - qy))) / 4.0))
          * ((px + 0.1) - (qx + ((px - qx)
              / Real.sqrt ((px - qx) * (px - qx) + (py - qy) * (py - qy))) / 4.0))
        + ((py + 0.0) - (qy + ((py - qy)
              / Real.sqrt ((px - qx) * (px - qx) + (py - qy) * (py - qy))) / 4.0))
          * ((py + 0.0) - (qy + ((py - qy)
              / Real.sqrt ((px - qx) * (px - qx) + (py - qy) * (py - qy))) / 4.0)))
      ≤ Real.sqrt ((px - qx) * (px - qx) + (py - qy) * (py - qy)) - 0.15 := by
  have hnn : 0 ≤ (px - qx) * (px - qx) + (py - qy) * (py - qy) :=
    add_nonneg (mul_self_nonneg _) (mul_self_nonneg _)
  generalize hDdef : Real.sqrt ((px - qx) * (px - qx) + (py - qy) * (py - qy)) = D at hD ⊢
  have hsq : D * D = (px - qx) * (px - qx) + (py - qy) * (py - qy) := by
    rw [← hDdef]; exact Real.mul_self_sqrt hnn
  have hD2 : (0.2 : ℝ) ≤ D := not_lt.mp hD
  have hDpos : 0 < D := by linarith
  have hDne : D ≠ 0 := ne_of_gt hDpos
  generalize hu : (px - qx) / D = u
  generalize hw : (py - qy) / D = w
  have hua : px - qx = u * D := by rw [← hu]; field_simp
  have hwa : py - qy = w * D := by rw [← hw]; field_simp
  have hunit : u * u + w * w = 1 := by
    have h1 : (u * u + w * w) * (D * D) = 1 * (D * D) := by
      calc (u * u + w * w) * (D * D) = (u * D) * (u * D) + (w * D) * (w * D) := by ring
        _ = (px - qx) * (px - qx) + (py - qy) * (py - qy) := by rw [← hua, ← hwa]
        _ = D * D := hsq.symm
        _ = 1 * (D * D) := by ring
    exact mul_right_cancel₀ (mul_ne_zero hDne hDne) h1
  have hu1 : u ≤ 1 := by nlinarith [mul_self_nonneg w, mul_self_nonneg (u - 1)]
  have hu2 : -1 ≤ u := by nlinarith [mul_self_nonneg w, mul_self_nonneg (u + 1)]
  have hx : (px + 0.1) - (qx + u / 4.0) = u * (D - 1 / 4) + 0.1 := by
    have : px = qx + u * D := by linarith
    rw [this]; norm_num; ring
  have hy : (py + 0.0) - (qy + w / 4.0) = w * (D - 1 / 4) := by
    have : py = qy + w * D := by linarith
    rw [this]; norm_num; ring
  rw [hx, hy]
  have hX : (u * (D - 1 / 4) + 0.1) * (u * (D - 1 / 4) + 0.1)
      + (w * (D - 1 / 4)) * (w * (D - 1 / 4))
      = (D - 1 / 4) ^ 2 + 0.2 * (u * (D - 1 / 4)) + 0.01 := by
    have : (u * (D - 1 / 4) + 0.1) * (u * (D - 1 / 4) + 0.1)
      + (w * (D - 1 / 4)) * (w * (D - 1 / 4))
      = (u * u + w * w) * (D - 1 / 4) ^ 2 + 0.2 * (u * (D - 1 / 4)) + 0.01 := by ring
    rw [this, hunit]; ring
  rw [hX]
  by_cases hm : 1 / 4 ≤ D
  · right
    rw [Real.sqrt_le_iff]
    refine ⟨by linarith, ?_⟩
    have ht : u * (D - 1 / 4) ≤ D - 1 / 4 := by
      have := mul_nonneg (sub_nonneg.mpr hu1) (sub_nonneg.mpr hm)
      linarith
    have hexp : (D - 0.15) ^ 2 = (D - 1 / 4) ^ 2 + 0.2 * (D - 1 / 4) + 0.01 := by ring
    rw [hexp]
    linarith
  · left
    have hm' : D < 1 / 4 := not_le.mp hm
    have hle : Real.sqrt ((D - 1 / 4) ^ 2 + 0.2 * (u * (D - 1 / 4)) + 0.01) ≤ 0.15 := by
      rw [Real.sqrt_le_iff]
      refine ⟨by norm_num, ?_⟩
      have ht : u * (D - 1 / 4) ≤ 1 / 4 - D := by
        have := mul_nonneg (by linarith : (0 : ℝ) ≤ 1 + u) (by linarith : (0 : ℝ) ≤ 1 / 4 - D)
        linarith
      have hexp : (D - 1 / 4) ^ 2 + 0.2 * (1 / 4 - D) + 0.01 = (0.35 - D) ^ 2 := by ring
      have hb : (0.35 - D) ^ 2 ≤ (0.15 : ℝ) ^ 2 :=
        pow_le_pow_left₀ (by linarith) (by linarith) 2
      linarith
    have h15 : (0.15 : ℝ) < 0.2 := by norm_num
    linarith

theorem main_loop_exit_one (s : Exec Real) (p q : CTransform Real) (v : CVelocity Real)
    (hs : s.ecs = chase_world p q v) (hf : s.fault = false)
    (hd : missile_distance Real.sqrt (movement_system s).ecs 1 < 0.2) :
    main_loop_exit_at s 1 := by
  obtain ⟨h1, h2, h3⟩ := main_tick_chase s p q v hs hf
  rw [h1] at hd
  obtain ⟨b1, b2, b3, b4⟩ := chase_world_boom _ _ v hd
  refine ⟨?_, ?_, ?_, h2, ?_, ?_, ?_, ?_⟩
  · intro k hk
    have hk0 : k = 0 := by omega
    subst hk0
    refine ⟨hf, ?_⟩
    show countEnts s.ecs ≠ 0
    rw [hs, chase_world_countEnts]
    decide
  · intro k hk; omega
  · show missile_distance Real.sqrt (movement_system s).ecs 1 < 0.2
    rw [h1]; exact hd
  · show countEnts (main_tick Real.sqrt s).ecs = 0
    rw [h3]; exact b1
  · show ecs_ent_is_valid (main_tick Real.sqrt s).ecs _ = false
    rw [h3]; exact b2
  · show ecs_ent_is_valid (main_tick Real.sqrt s).ecs _ = false
    rw [h3]; exact b3
  · show live_count (main_tick Real.sqrt s).ecs + 2 = _
    rw [h3]; exact b4

theorem main_loop_exit_succ (s : Exec Real) (m : Nat) (hm : 1 ≤ m)
    (hf : s.fault = false) (hc : countEnts s.ecs ≠ 0)
    (hd : ¬ missile_distance Real.sqrt (movement_system s).ecs 1 < 0.2)
    (h : main_loop_exit_at (main_tick Real.sqrt s) m) : main_loop_exit_at s (m + 1) := by
  obtain ⟨a1, a2, a3, a4, a5, a6, a7, a8⟩ := h
  refine ⟨?_, ?_, ?_, ?_, ?_, ?_, ?_, ?_⟩
  · intro k hk
    cases k with
    | zero => exact ⟨hf, hc⟩
    | succ k =>
      rw [Function.iterate_succ_apply]
      exact a1 k (by omega)
  · intro k hk
    cases k with
    | zero => exact hd
    | succ k =>
      rw [Function.iterate_succ_apply]
      exact a2 k (by omega)
  · have : m + 1 - 1 = (m - 1) + 1 := by omega
    rw [this, Function.iterate_succ_apply]
    exact a3
  · rw [Function.iterate_succ_apply]; exact a4
  · rw [Function.iterate_succ_apply]; exact a5
  · rw [Function.iterate_succ_apply]; exact a6
  · rw [Function.iterate_succ_apply]; exact a7
  · rw [Function.iterate_succ_apply]; exact a8

/-- From a chase world in which the missile flies towards the ship from a
distance `D` of at least 0.2 and below `0.2 + 0.15 * n`, the main loop exits
after at most `n` passes. -/
theorem chase_exit (n : Nat) : ∀ (s : Exec Real) (p q : CTransform Real),
    s.fault = false →
    s.ecs = chase_world p q
      { dx := ((p.x - q.x)
            / Real.sqrt ((p.x - q.x) * (p.x - q.x) + (p.y - q.y) * (p.y - q.y))) / 4.0
        dy := ((p.y - q.y)
            / Real.sqrt ((p.x - q.x) * (p.x - q.x) + (p.y - q.y) * (p.y - q.y))) / 4.0 } →
    ¬ Real.sqrt ((p.x - q.x) * (p.x - q.x) + (p.y - q.y) * (p.y - q.y)) < 0.2 →
    Real.sqrt ((p.x - q.x) * (p.x - q.x) + (p.y - q.y) * (p.y - q.y)) < 0.2 + 0.15 * n →
    ∃ m, 1 ≤ m ∧ m ≤ n ∧ main_loop_exit_at s m := by
  induction n with
  | zero =>
    intro s p q _ _ hD hlt
    exfalso
    apply hD
    simpa using hlt
  | succ n ih =>
    intro s p q hf hs hD hlt
    obtain ⟨h1, h2, h3⟩ := main_tick_chase s p q _ hs hf
    have hc : countEnts s.ecs ≠ 0 := by
      rw [hs, chase_world_countEnts]; decide
    by_cases hd : missile_distance Real.sqrt (movement_system s).ecs 1 < 0.2
    · exact ⟨1, Nat.le_refl _, by omega, main_loop_exit_one s p q _ hs hf hd⟩
    · have hd' := hd
      rw [h1] at hd'
      have hfar := chase_world_far _ _ _ hd'
      rw [chase_world_distance] at hfar hd'
      have hclose := chase_closes p.x p.y q.x q.y hD
      have hstep : Real.sqrt
          (((p.x + 0.1) - (q.x + ((p.x - q.x)
                / Real.sqrt ((p.x - q.x) * (p.x - q.x) + (p.y - q.y) * (p.y - q.y))) / 4.0))
            * ((p.x + 0.1) - (q.x + ((p.x - q.x)
                / Real.sqrt ((p.x - q.x) * (p.x - q.x) + (p.y - q.y) * (p.y - q.y))) / 4.0))
          + ((p.y + 0.0) - (q.y + ((p.y - q.y)
                / Real.sqrt ((p.x - q.x) * (p.x - q.x) + (p.y - q.y) * (p.y - q.y))) / 4.0))
            * ((p.y + 0.0) - (q.y + ((p.y - q.y)
                / Real.sqrt ((p.x - q.x) * (p.x - q.x) + (p.y - q.y) * (p.y - q.y))) / 4.0)))
          ≤ Real.sqrt ((p.x - q.x) * (p.x - q.x) + (p.y - q.y) * (p.y - q.y)) - 0.15 := by
        rcases hclose with hl | hr
        · exact absurd hl hd'
        · exact hr
      have hlt' : Real.sqrt
          (((p.x + 0.1) - (q.x + ((p.x - q.x)
                / Real.sqrt ((p.x - q.x) * (p.x - q.x) + (p.y - q.y) * (p.y - q.y))) / 4.0))
            * ((p.x + 0.1) - (q.x + ((p.x - q.x)
                / Real.sqrt ((p.x - q.x) * (p.x - q.x) + (p.y - q.y) * (p.y - q.y))) / 4.0))
          + ((p.y + 0.0) - (q.y + ((p.y - q.y)
                / Real.sqrt ((p.x - q.x) * (p.x - q.x) + (p.y - q.y) * (p.y - q.y))) / 4.0))
            * ((p.y + 0.0) - (q.y + ((p.y - q.y)
                / Real.sqrt ((p.x - q.x) * (p.x - q.x) + (p.y - q.y) * (p.y - q.y))) / 4.0)))
          < 0.2 + 0.15 * n := by
        push_cast at hlt
        linarith
      obtain ⟨m, hm1, hmn, hex⟩ := ih (main_tick Real.sqrt s) _ _ h2 (h3.trans hfar) hd' hlt'
      exact ⟨m + 1, by omega, by omega, main_loop_exit_succ s m hm1 hf hc hd hex⟩

theorem main_loop_runs (n : Nat) : ∀ (s : Exec Real),
    (∀ k, k < n → ((main_tick Real.sqrt)^[k] s).fault = false
      ∧ countEnts ((main_tick Real.sqrt)^[k] s).ecs ≠ 0) →
    ((main_tick Real.sqrt)^[n] s).fault = false →
    countEnts ((main_tick Real.sqrt)^[n] s).ecs = 0 →
    ∀ fuel, n < fuel → main_loop Real.sqrt fuel s = some ((main_tick Real.sqrt)^[n] s) := by
  induction n with
  | zero =>
    intro s _ hf hc fuel hfuel
    obtain ⟨f, rfl⟩ : ∃ f, fuel = f + 1 := ⟨fuel - 1, by omega⟩
    simp only [Function.iterate_zero, id_eq] at hf hc ⊢
    simp [main_loop, hf, hc]
  | succ n ih =>
    intro s hk hf hc fuel hfuel
    obtain ⟨f, rfl⟩ : ∃ f, fuel = f + 1 := ⟨fuel - 1, by omega⟩
    have h0 := hk 0 (by omega)
    simp only [Function.iterate_zero, id_eq] at h0
    rw [Function.iterate_succ_apply] at hf hc ⊢
    have hrun : main_loop Real.sqrt (f + 1) s = main_loop Real.sqrt f (main_tick Real.sqrt s) := by
      simp [main_loop, h0.1, h0.2]
    rw [hrun]
    apply ih (main_tick Real.sqrt s) _ hf hc f (by omega)
    intro k hkn
    have := hk (k + 1) (by omega)
    rw [Function.iterate_succ_apply] at this
    exact this

theorem main_start_exit : ∃ n, 1 ≤ n ∧ n ≤ 37 ∧ main_loop_exit_at main_start n := by
  obtain ⟨h1, h2, h3⟩ := main_tick_chase main_start _ _ _ main_start_chase main_start_fault
  have hX : ((0.0 + 0.1 : ℝ) - (4.0 + 0.0)) * ((0.0 + 0.1) - (4.0 + 0.0))
      + ((0.0 + 0.0) - (4.0 + 0.0)) * ((0.0 + 0.0) - (4.0 + 0.0)) = 31.21 := by norm_num
  have hd : ¬ Real.sqrt (((0.0 + 0.1 : ℝ) - (4.0 + 0.0)) * ((0.0 + 0.1) - (4.0 + 0.0))
      + ((0.0 + 0.0) - (4.0 + 0.0)) * ((0.0 + 0.0) - (4.0 + 0.0))) < 0.2 := by
    rw [hX, not_lt, Real.le_sqrt' (by norm_num)]
    norm_num
  have hlt : Real.sqrt (((0.0 + 0.1 : ℝ) - (4.0 + 0.0)) * ((0.0 + 0.1) - (4.0 + 0.0))
      + ((0.0 + 0.0) - (4.0 + 0.0)) * ((0.0 + 0.0) - (4.0 + 0.0))) < 0.2 + 0.15 * (36 : ℕ) := by
    rw [hX, Real.sqrt_lt' (by norm_num)]
    norm_num
  have hd1 : ¬ missile_distance Real.sqrt (movement_system main_start).ecs 1 < 0.2 := by
    rw [h1, chase_world_distance]
    exact hd
  have hd1' := hd1
  rw [h1] at hd1'
  have hfar := chase_world_far _ _ _ hd1'
  rw [chase_world_distance] at hfar
  obtain ⟨m, hm1, hm36, hex⟩ := chase_exit 36 (main_tick Real.sqrt main_start) _ _ h2
    (h3.trans hfar) hd hlt
  refine ⟨m + 1, by omega, by omega, ?_⟩
  apply main_loop_exit_succ main_start m hm1 main_start_fault _ hd1 hex
  rw [main_start_chase, chase_world_countEnts]
  decide

/-- C7: the main loop of the example terminates over exact real arithmetic.  `main`
builds its start state; for some number `n` of passes between 1 and 37: before
each of the `n` passes there is no fault and `countEnts` is not zero, so the loop
goes on; the distance `missile_system` measures for the missile is not below 0.2
in the passes before the `n`-th and is below 0.2 in the `n`-th; after the `n`-th
pass nothing has faulted, the ship and the missile are both destroyed (their
handles are not valid and two entities fewer are live), `countEnts` returns 0,
and with any fuel above `n` the loop of `main` exits in exactly that state. -/
theorem C7_main_loop_terminates :
    ∃ n, 1 ≤ n ∧ n ≤ 37
      ∧ main_init (F := Real) = some main_start
      ∧ (∀ k, k < n → ((main_tick Real.sqrt)^[k] main_start).fault = false
          ∧ countEnts ((main_tick Real.sqrt)^[k] main_start).ecs ≠ 0)
      ∧ (∀ k, k + 1 < n →
          ¬ missile_distance Real.sqrt
              (movement_system ((main_tick Real.sqrt)^[k] main_start)).ecs 1 < 0.2)
      ∧ missile_distance Real.sqrt
          (movement_system ((main_tick Real.sqrt)^[n - 1] main_start)).ecs 1 < 0.2
      ∧ ((main_tick Real.sqrt)^[n] main_start).fault = false
      ∧ countEnts ((main_tick Real.sqrt)^[n] main_start).ecs = 0
      ∧ ecs_ent_is_valid ((main_tick Real.sqrt)^[n] main_start).ecs
          (ecs_get_ent main_start.ecs 0) = false
      ∧ ecs_ent_is_valid ((main_tick Real.sqrt)^[n] main_start).ecs
          (ecs_get_ent main_start.ecs 1) = false
      ∧ live_count ((main_tick Real.sqrt)^[n] main_start).ecs + 2 = live_count main_start.ecs
      ∧ (∀ fuel, n < fuel →
          main Real.sqrt fuel = some ((main_tick Real.sqrt)^[n] main_start)) := by
  obtain ⟨n, hn1, hn37, a1, a2, a3, a4, a5, a6, a7, a8⟩ := main_start_exit
  refine ⟨n, hn1, hn37, main_init_eq, a1, a2, a3, a4, a5, a6, a7, a8, ?_⟩
  intro fuel hfuel
  show (main_init (F := Real) >>= main_loop Real.sqrt fuel) = _
  rw [main_init_eq]
  exact main_loop_runs n main_start a1 a4 a5 fuel hfuel

end EcsExample
